import Mathlib

/-!
Verification of the CDDL validation core (a JSON validator and a CBOR
validator for CDDL, RFC 8610) against its natural-language specification.

The development shallowly embeds the two validators:

* namespace `Cbor` embeds `src/validator/cbor.rs`: the visitor-style
  interpreter `CBORValidator` with its mutable context, error list with
  watermark-based rollback, control operators and member-key matching.
  The interpreter is embedded as a family of mutually recursive functions
  over an explicit state record, with a fuel parameter for termination
  (rule references may form cycles in the source, which recurses
  unboundedly there; fuel exhaustion is a distinguished outcome).

* namespace `Json` embeds `src/validator.rs`: the older recursive-descent
  JSON validator returning `Result<(), ValidationError>`.

Helpers that the source files import from sibling modules that are not part
of the two source files (the token table, the visitor default walks, the
rule-resolution and occurrence helpers) are modelled from the specification;
each such definition carries a doc comment starting with
"Modelled from the spec:".

The external regular-expression engine is out of reach of a shallow
embedding; the one arm of `visit_value` that invokes it is embedded as an
abort outcome and is exercised by no theorem below.
-/

namespace Cbor

/-- Modelled from the spec: the token kinds of the CDDL lexer that the CBOR
validator consults (prelude identifiers of section 4.1 and the control
operator tokens of section 4.3); identifiers outside the prelude map to
`IDENT`. -/
inductive Token where
  | BOOL | TRUE | FALSE
  | INT | INTEGER | UINT | NINT | NUMBER
  | FLOAT | FLOAT16 | FLOAT32 | FLOAT64 | FLOAT1632 | FLOAT3264
  | TSTR | TEXT | BSTR | BYTES | NIL | NULL | ANY | UNDEFINED
  | EQ | NE | LT | GT | GE | LE | SIZE | AND | WITHIN | DEFAULT | REGEXP | PCRE
  | IDENT (name : String)
  deriving DecidableEq, Repr

/-- Modelled from the spec: maps a prelude identifier to its token
(section 4.1 lists the prelude identifiers the core recognizes literally). -/
def lookup_ident (s : String) : Token :=
  if s = "any" then .ANY
  else if s = "bool" then .BOOL
  else if s = "true" then .TRUE
  else if s = "false" then .FALSE
  else if s = "null" then .NULL
  else if s = "nil" then .NIL
  else if s = "uint" then .UINT
  else if s = "nint" then .NINT
  else if s = "int" then .INT
  else if s = "integer" then .INTEGER
  else if s = "number" then .NUMBER
  else if s = "float" then .FLOAT
  else if s = "float16" then .FLOAT16
  else if s = "float32" then .FLOAT32
  else if s = "float64" then .FLOAT64
  else if s = "float16-32" then .FLOAT1632
  else if s = "float32-64" then .FLOAT3264
  else if s = "tstr" then .TSTR
  else if s = "text" then .TEXT
  else if s = "bstr" then .BSTR
  else if s = "bytes" then .BYTES
  else .IDENT s

/-- Modelled from the spec: maps the textual form of a control operator to
its token (section 4.3 lists the supported control operators). -/
def lookup_control_from_str (s : String) : Option Token :=
  if s = ".eq" then some .EQ
  else if s = ".ne" then some .NE
  else if s = ".lt" then some .LT
  else if s = ".gt" then some .GT
  else if s = ".ge" then some .GE
  else if s = ".le" then some .LE
  else if s = ".size" then some .SIZE
  else if s = ".and" then some .AND
  else if s = ".within" then some .WITHIN
  else if s = ".default" then some .DEFAULT
  else if s = ".regexp" then some .REGEXP
  else if s = ".pcre" then some .PCRE
  else none

/-- Byte-string literal payloads (token::ByteValue). -/
inductive ByteValue where
  | UTF8 (bytes : List Nat)
  | B16 (bytes : List Nat)
  | B64 (bytes : List Nat)
  deriving DecidableEq, Repr

/-- Literal values of the CDDL AST (token::Value). Floats are modelled as
rationals; no theorem below depends on float rounding. -/
inductive TokenValue where
  | INT (i : Int)
  | UINT (n : Nat)
  | FLOAT (f : Rat)
  | TEXT (t : String)
  | BYTE (b : ByteValue)
  deriving DecidableEq, Repr

/-- Modelled from the spec: the Display form of a token::Value, used by the
validator when pushing a member-key segment onto the value path and in
error messages. Text literals render quoted. -/
def tokenValueToString : TokenValue → String
  | .INT i => toString i
  | .UINT n => toString n
  | .FLOAT f => toString f
  | .TEXT t => "\"" ++ t ++ "\""
  | .BYTE _ => "h..."

/-- The decoded CBOR data values (serde_cbor::Value). Maps are embedded as
association lists looked up by structural equality; the theorems below only
use maps whose keys are distinct, where this agrees with the BTreeMap of the
source. Floats are modelled as rationals. -/
inductive CborValue where
  | null
  | bool (b : Bool)
  | integer (i : Int)
  | float (f : Rat)
  | bytes (bs : List Nat)
  | text (s : String)
  | array (items : List CborValue)
  | map (entries : List (CborValue × CborValue))

mutual

/-- Structural equality of CBOR values (the Eq/Ord of serde_cbor::Value,
restricted to equality). -/
def cborBeq : CborValue → CborValue → Bool
  | .null, .null => true
  | .bool a, .bool b => a = b
  | .integer a, .integer b => a = b
  | .float a, .float b => a = b
  | .bytes a, .bytes b => a = b
  | .text a, .text b => a = b
  | .array a, .array b => cborBeqList a b
  | .map a, .map b => cborBeqPairs a b
  | _, _ => false

/-- Pointwise equality of CBOR value lists. -/
def cborBeqList : List CborValue → List CborValue → Bool
  | [], [] => true
  | a :: as_, b :: bs => cborBeq a b && cborBeqList as_ bs
  | _, _ => false

/-- Pointwise equality of CBOR map entry lists. -/
def cborBeqPairs :
    List (CborValue × CborValue) → List (CborValue × CborValue) → Bool
  | [], [] => true
  | a :: as_, b :: bs =>
      cborBeq a.1 b.1 && cborBeq a.2 b.2 && cborBeqPairs as_ bs
  | _, _ => false

end

/-- Key lookup in a CBOR map (BTreeMap::get on the embedded association
list). -/
def mapGet (entries : List (CborValue × CborValue)) (k : CborValue) :
    Option CborValue :=
  match entries.find? (fun e => cborBeq e.1 k) with
  | some e => some e.2
  | none => none

mutual

/-- Type2 of the CDDL AST (the variants the CBOR validator dispatches on;
the remaining variants, which the validator rejects through its catch-all
arm, are collapsed into `other`). -/
inductive Type2 where
  | IntValue (value : Int)
  | UintValue (value : Nat)
  | FloatValue (value : Rat)
  | TextValue (value : String)
  | Typename (ident : String) (generic_args : Option (List Type1))
  | ParenthesizedType (pt : TypeAst)
  | MapT (group : Group)
  | ArrayT (group : Group)
  | ChoiceFromInlineGroup (group : Group)
  | ChoiceFromGroup (ident : String) (generic_args : Option (List Type1))
  | Any
  | other (display : String)

/-- Type1: a Type2 with an optional range or control operator. -/
inductive Type1 where
  | mk (type2 : Type2) (operator : Option Operator)

/-- The operator of a Type1: a range (with inclusivity) or a control
operator identified by its textual form, together with the controller. -/
inductive Operator where
  | rangeOp (is_inclusive : Bool) (type2 : Type2)
  | ctlOp (ctrl : String) (type2 : Type2)

/-- Type: the non-empty list of type choices (each wrapped in a TypeChoice
in the source; the wrapper carries only comments and is flattened here). -/
inductive TypeAst where
  | mk (type_choices : List Type1)

/-- Group: the list of group choices. -/
inductive Group where
  | mk (group_choices : List GroupChoice)

/-- GroupChoice: the ordered group entries (the optional-comma component of
the source pair carries only formatting and is dropped). -/
inductive GroupChoice where
  | mk (group_entries : List GroupEntry)

/-- GroupEntry (ValueMemberKey fields are inlined into the constructor). -/
inductive GroupEntry where
  | ValueMemberKey (occur : Option Occur) (member_key : Option MemberKey)
      (entry_type : TypeAst)
  | TypeGroupname (occur : Option Occur) (name : String)
      (generic_args : Option (List Type1))
  | InlineGroup (occur : Option Occur) (group : Group)

/-- MemberKey. `Type1M` carries the cut flag of the arrow form. -/
inductive MemberKey where
  | Type1M (t1 : Type1) (is_cut : Bool)
  | Bareword (ident : String)
  | ValueM (value : TokenValue)
  | NonMemberKey

/-- Occurrence indicators (span and comment payloads of the source are
dropped). -/
inductive Occur where
  | Optional
  | ZeroOrMore
  | OneOrMore
  | Exact (lower : Option Nat) (upper : Option Nat)

end

/-- A type rule: name = value, with optional generic parameters. -/
structure TypeRule where
  name : String
  generic_params : Option (List String)
  value : TypeAst

/-- A group rule: name = group entry, with optional generic parameters. -/
structure GroupRule where
  name : String
  generic_params : Option (List String)
  entry : GroupEntry

/-- A CDDL rule. -/
inductive Rule where
  | TypeR (rule : TypeRule)
  | GroupR (rule : GroupRule)

/-- The CDDL program: an ordered list of rules. -/
structure CDDL where
  rules : List Rule

/-- A generic-rule binding frame (GenericRule of cbor.rs). -/
structure GenericRule where
  name : String
  params : List String
  args : List Type1

/-- A validation error as recorded by the CBOR validator. -/
structure ValidationError where
  reason : String
  cddl_location : String
  cbor_location : String
  is_multi_type_choice : Bool
  is_multi_group_choice : Bool
  is_group_to_choice_enum : Bool
  type_group_name_entry : Option String

/-- The mutable context of the CBOR validator (the fields of CBORValidator
other than the shared immutable CDDL reference, which is threaded as a
separate parameter). -/
structure St where
  cbor : CborValue
  errors : List ValidationError
  cddl_location : String
  cbor_location : String
  occurence : Option Occur
  group_entry_idx : Option Nat
  object_value : Option CborValue
  is_member_key : Bool
  is_cut_present : Bool
  cut_value : Option Type1
  eval_generic_rule : Option String
  generic_rules : List GenericRule
  ctrl : Option Token
  is_group_to_choice_enum : Bool
  is_multi_type_choice : Bool
  is_multi_group_choice : Bool
  type_group_name_entry : Option String
  advance_to_next_entry : Bool
  is_ctrl_map_equality : Bool
  entry_counts : Option (List Nat)

/-- CBORValidator::new: the initial context for a value. -/
def newValidator (cbor : CborValue) : St where
  cbor := cbor
  errors := []
  cddl_location := ""
  cbor_location := ""
  occurence := none
  group_entry_idx := none
  object_value := none
  is_member_key := false
  is_cut_present := false
  cut_value := none
  eval_generic_rule := none
  generic_rules := []
  ctrl := none
  is_group_to_choice_enum := false
  is_multi_type_choice := false
  is_multi_group_choice := false
  type_group_name_entry := none
  advance_to_next_entry := false
  is_ctrl_map_equality := false
  entry_counts := none

/-- CBORValidator::add_error: pushes an error carrying the current
locations and annotation flags. -/
def addError (st : St) (reason : String) : St :=
  { st with errors := st.errors ++ [{
      reason := reason
      cddl_location := st.cddl_location
      cbor_location := st.cbor_location
      is_multi_type_choice := st.is_multi_type_choice
      is_multi_group_choice := st.is_multi_group_choice
      is_group_to_choice_enum := st.is_group_to_choice_enum
      type_group_name_entry := st.type_group_name_entry }] }

/-- ValidationError::from_validator (used by the abort paths). -/
def fromValidator (st : St) (reason : String) : ValidationError where
  reason := reason
  cddl_location := st.cddl_location
  cbor_location := st.cbor_location
  is_multi_type_choice := st.is_multi_type_choice
  is_multi_group_choice := st.is_multi_group_choice
  is_group_to_choice_enum := st.is_group_to_choice_enum
  type_group_name_entry := st.type_group_name_entry

/-- Truncation of the error list back to a watermark: the source pops
(len - watermark) entries off the end of the vector. -/
def truncErrors (st : St) (watermark : Nat) : St :=
  { st with errors := st.errors.take watermark }

/-- Outcome of a visit: the Err alternative of visitor::Result aborts the
whole validation; noFuel marks exhaustion of the termination fuel (the
source recurses unboundedly on cyclic rule references). -/
inductive Halt where
  | abort (e : ValidationError)
  | noFuel

/-- Result type of the visit functions. -/
abbrev VisitM := Except Halt St

/-- Modelled from the spec: the Display form of a token, used in error
messages; control operators render with their dot, prelude types with
their identifier. -/
def tokenToString : Token → String
  | .BOOL => "bool" | .TRUE => "true" | .FALSE => "false"
  | .INT => "int" | .INTEGER => "integer" | .UINT => "uint"
  | .NINT => "nint" | .NUMBER => "number"
  | .FLOAT => "float" | .FLOAT16 => "float16" | .FLOAT32 => "float32"
  | .FLOAT64 => "float64" | .FLOAT1632 => "float16-32"
  | .FLOAT3264 => "float32-64"
  | .TSTR => "tstr" | .TEXT => "text" | .BSTR => "bstr" | .BYTES => "bytes"
  | .NIL => "nil" | .NULL => "null" | .ANY => "any"
  | .UNDEFINED => "undefined"
  | .EQ => ".eq" | .NE => ".ne" | .LT => ".lt" | .GT => ".gt"
  | .GE => ".ge" | .LE => ".le" | .SIZE => ".size" | .AND => ".and"
  | .WITHIN => ".within" | .DEFAULT => ".default"
  | .REGEXP => ".regexp" | .PCRE => ".pcre"
  | .IDENT n => n

mutual

/-- Modelled from the spec: Debug rendering of a CBOR value, used in the
got-part of error messages. -/
def cborDebugString : CborValue → String
  | .null => "Null"
  | .bool b => "Bool(" ++ toString b ++ ")"
  | .integer i => "Integer(" ++ toString i ++ ")"
  | .float f => "Float(" ++ toString f ++ ")"
  | .bytes bs => "Bytes(" ++ toString bs ++ ")"
  | .text s => "Text(\"" ++ s ++ "\")"
  | .array items => "Array([" ++ cborDebugList items ++ "])"
  | .map entries => "Map(" ++ cborDebugPairs entries ++ ")"

/-- Debug rendering of a list of CBOR values. -/
def cborDebugList : List CborValue → String
  | [] => ""
  | [v] => cborDebugString v
  | v :: rest => cborDebugString v ++ ", " ++ cborDebugList rest

/-- Debug rendering of CBOR map entries. -/
def cborDebugPairs : List (CborValue × CborValue) → String
  | [] => ""
  | [p] => cborDebugString p.1 ++ ": " ++ cborDebugString p.2
  | p :: rest =>
      cborDebugString p.1 ++ ": " ++ cborDebugString p.2 ++ ", " ++
        cborDebugPairs rest

end

mutual

/-- Modelled from the spec: the Display form of a Type2, used in error
messages. -/
def type2ToString : Type2 → String
  | .IntValue i => toString i
  | .UintValue n => toString n
  | .FloatValue f => toString f
  | .TextValue t => "\"" ++ t ++ "\""
  | .Typename id _ => id
  | .ParenthesizedType t => "(" ++ typeToString t ++ ")"
  | .MapT g => "\x7b " ++ groupToString g ++ " \x7d"
  | .ArrayT g => "[ " ++ groupToString g ++ " ]"
  | .ChoiceFromInlineGroup g => "& (" ++ groupToString g ++ ")"
  | .ChoiceFromGroup id _ => "& " ++ id
  | .Any => "any"
  | .other d => d

/-- Display form of a Type1. -/
def type1ToString : Type1 → String
  | .mk t2 none => type2ToString t2
  | .mk t2 (some (.rangeOp incl u)) =>
      type2ToString t2 ++ (if incl then ".." else "...") ++ type2ToString u
  | .mk t2 (some (.ctlOp c u)) =>
      type2ToString t2 ++ " " ++ c ++ " " ++ type2ToString u

/-- Display form of a Type (choices joined by the choice separator). -/
def typeToString : TypeAst → String
  | .mk cs => typeChoicesToString cs

/-- Display form of a list of type choices. -/
def typeChoicesToString : List Type1 → String
  | [] => ""
  | [t] => type1ToString t
  | t :: rest => type1ToString t ++ " / " ++ typeChoicesToString rest

/-- Display form of a Group. -/
def groupToString : Group → String
  | .mk gcs => groupChoicesToString gcs

/-- Display form of a list of group choices. -/
def groupChoicesToString : List GroupChoice → String
  | [] => ""
  | [gc] => groupChoiceToString gc
  | gc :: rest => groupChoiceToString gc ++ " // " ++ groupChoicesToString rest

/-- Display form of a GroupChoice. -/
def groupChoiceToString : GroupChoice → String
  | .mk ges => groupEntriesToString ges

/-- Display form of a list of group entries. -/
def groupEntriesToString : List GroupEntry → String
  | [] => ""
  | [ge] => groupEntryToString ge
  | ge :: rest => groupEntryToString ge ++ ", " ++ groupEntriesToString rest

/-- Display form of a GroupEntry. -/
def groupEntryToString : GroupEntry → String
  | .ValueMemberKey _ (some mk) t => memberKeyToString mk ++ " " ++ typeToString t
  | .ValueMemberKey _ none t => typeToString t
  | .TypeGroupname _ name _ => name
  | .InlineGroup _ g => "(" ++ groupToString g ++ ")"

/-- Display form of a MemberKey. -/
def memberKeyToString : MemberKey → String
  | .Type1M t1 true => type1ToString t1 ++ " ^ =>"
  | .Type1M t1 false => type1ToString t1 ++ " =>"
  | .Bareword id => id ++ ":"
  | .ValueM v => tokenValueToString v ++ ":"
  | .NonMemberKey => ""

end

/-- Modelled from the spec: resolves an identifier to the first rule (type
or group) with that name, in declaration order (section 4.1). -/
def rule_from_ident (cddl : CDDL) (ident : String) : Option Rule :=
  cddl.rules.find? (fun r =>
    match r with
    | .TypeR tr => tr.name = ident
    | .GroupR gr => gr.name = ident)

/-- Modelled from the spec: resolves an identifier to the first group rule
with that name. -/
def group_rule_from_ident (cddl : CDDL) (ident : String) : Option GroupRule :=
  cddl.rules.findSome? (fun r =>
    match r with
    | .GroupR gr => if gr.name = ident then some gr else none
    | _ => none)

/-- Modelled from the spec: the generic parameters of a rule, when present. -/
def generic_params_from_rule : Rule → Option (List String)
  | .TypeR tr => tr.generic_params
  | .GroupR gr => gr.generic_params

/-- Modelled from the spec: the combined type-choice alternates of an
identifier — the values of all type rules with that name, in declaration
order (section 4.1: the first rule extended with each subsequent rule). -/
def type_choice_alternates_from_ident (cddl : CDDL) (ident : String) :
    List TypeAst :=
  cddl.rules.filterMap (fun r =>
    match r with
    | .TypeR tr => if tr.name = ident then some tr.value else none
    | _ => none)

/-- Modelled from the spec: the combined group-choice alternates of an
identifier — the entries of all group rules with that name, in declaration
order (section 4.1). -/
def group_choice_alternates_from_ident (cddl : CDDL) (ident : String) :
    List GroupEntry :=
  cddl.rules.filterMap (fun r =>
    match r with
    | .GroupR gr => if gr.name = ident then some gr.entry else none
    | _ => none)

/-- Modelled from the spec: the entry count of a group choice — the number
of entries that are not occurrence-optional (section 4.8). -/
def entry_counts_from_group_choice (_cddl : CDDL) (gc : GroupChoice) : Nat :=
  match gc with
  | .mk ges => (ges.filter (fun ge =>
      match ge with
      | .ValueMemberKey occ _ _ => occ.isNone
      | .TypeGroupname occ _ _ => occ.isNone
      | .InlineGroup occ _ => occ.isNone)).length

/-- Modelled from the spec: enumeration of a group choice as type choices,
for the group-to-choice operator (section 4.4): each entry contributes its
entry type. -/
def type_choices_from_group_choice (_cddl : CDDL) (gc : GroupChoice) :
    List Type1 :=
  match gc with
  | .mk ges => ges.flatMap (fun ge =>
      match ge with
      | .ValueMemberKey _ _ (.mk tcs) => tcs
      | .TypeGroupname _ name ga => [.mk (.Typename name ga) none]
      | .InlineGroup _ _ => [])

/-- Modelled from the spec: the occurrence arbiter for arrays
(section 4.5). Returns iter_items: true directs the caller to iterate
every element, false directs positional matching; an Err is an occurrence
violation. -/
def validate_array_occurrence (occur : Option Occur) (values : List CborValue) :
    Except String Bool :=
  match occur with
  | none => .ok false
  | some .Optional => .ok false
  | some .ZeroOrMore => .ok true
  | some .OneOrMore =>
      if values.isEmpty then
        .error "array must have one or more items"
      else .ok true
  | some (.Exact lower upper) =>
      match lower with
      | some l =>
          if values.length < l then
            .error ("array must have at least " ++ toString l ++ " items")
          else
            match upper with
            | some u =>
                if values.length > u then
                  .error ("array must have at most " ++ toString u ++ " items")
                else .ok true
            | none => .ok true
      | none =>
          match upper with
          | some u =>
              if values.length > u then
                .error ("array must have at most " ++ toString u ++ " items")
              else .ok true
          | none => .ok true

/-- Modelled from the spec: whether an identifier is a string data type of
the prelude (tstr or text, section 4.6). -/
def is_ident_string_data_type (_cddl : CDDL) (ident : String) : Bool :=
  ident = "tstr" || ident = "text"

/-- Modelled from the spec: whether an identifier is a numeric data type of
the prelude (section 4.1). -/
def is_ident_numeric_data_type (_cddl : CDDL) (ident : String) : Bool :=
  ident = "uint" || ident = "nint" || ident = "int" || ident = "integer" ||
  ident = "number" || ident = "float" || ident = "float16" ||
  ident = "float32" || ident = "float64" || ident = "float16-32" ||
  ident = "float32-64"

/-- Modelled from the spec: whether an identifier is the uint data type. -/
def is_ident_uint_data_type (_cddl : CDDL) (ident : String) : Bool :=
  ident = "uint"

/-- Modelled from the spec: whether an identifier is an integer data type. -/
def is_ident_integer_data_type (_cddl : CDDL) (ident : String) : Bool :=
  ident = "int" || ident = "integer" || ident = "uint" || ident = "nint"

/-- Modelled from the spec: whether an identifier is the null data type. -/
def is_ident_null_data_type (_cddl : CDDL) (ident : String) : Bool :=
  ident = "null" || ident = "nil"

/-- Modelled from the spec: whether an identifier is a byte-string data
type. -/
def is_ident_byte_string_data_type (_cddl : CDDL) (ident : String) : Bool :=
  ident = "bstr" || ident = "bytes"

/-- Converts a CDDL literal value to a CBOR value
(token_value_into_cbor_value of cbor.rs). -/
def token_value_into_cbor_value : TokenValue → CborValue
  | .UINT n => .integer n
  | .INT i => .integer i
  | .FLOAT f => .float f
  | .TEXT t => .text t
  | .BYTE (.UTF8 b) => .bytes b
  | .BYTE (.B16 b) => .bytes b
  | .BYTE (.B64 b) => .bytes b

/-- Modelled from the spec: conversion of a literal value into a Type1
(the From impl the cut path of visit_value uses to remember the cut key). -/
def type1FromTokenValue : TokenValue → Type1
  | .INT i => .mk (.IntValue i) none
  | .UINT n => .mk (.UintValue n) none
  | .FLOAT f => .mk (.FloatValue f) none
  | .TEXT t => .mk (.TextValue t) none
  | .BYTE b => .mk (.other (tokenValueToString (.BYTE b))) none

/-- Updates the first generic-rule frame with the given name (the find +
mutate pattern of the source). -/
def updateFirstGeneric (rs : List GenericRule) (name : String)
    (f : GenericRule → GenericRule) : List GenericRule :=
  match rs with
  | [] => []
  | r :: rest =>
      if r.name = name then f r :: rest
      else r :: updateFirstGeneric rest name f

/-- The element subvalidator: CBORValidator::new for an array element with
the four inherited fields and the extended value path. -/
def elemValidator (st : St) (v : CborValue) (idx : Nat) : St :=
  { newValidator v with
    generic_rules := st.generic_rules
    eval_generic_rule := st.eval_generic_rule
    is_multi_type_choice := st.is_multi_type_choice
    cbor_location := st.cbor_location ++ "/" ++ toString idx }

/-- visit_occurrence: records the occurrence indicator in the context. -/
def visitOccurrence (st : St) (o : Occur) : St :=
  { st with occurence := some o }

/-- Tests for the matches arm on an Optional occurrence. -/
def occIsOptional : Option Occur → Bool
  | some .Optional => true
  | _ => false

/-- Tests for a ZeroOrMore or OneOrMore occurrence. -/
def occIsZeroOrOneOrMore : Occur → Bool
  | .ZeroOrMore => true
  | .OneOrMore => true
  | _ => false

/-- Tests for a OneOrMore occurrence. -/
def occIsOneOrMore : Occur → Bool
  | .OneOrMore => true
  | _ => false

/-- Tests whether a CBOR value is a text value. -/
def cborIsText : CborValue → Bool
  | .text _ => true
  | _ => false

/-- Tests whether a CBOR value is an integer value. -/
def cborIsInteger : CborValue → Bool
  | .integer _ => true
  | _ => false

/-- The catch-all arm of visit_identifier: annotates the error with the cut
origin when a cut value is pending (taking it), otherwise reports the plain
mismatch. -/
def identFallbackErr (st : St) (ident : String) : VisitM :=
  match st.cut_value with
  | some cv =>
      .ok (addError { st with cut_value := none }
        ("cut present for member key " ++ type1ToString cv ++
         ". expected type " ++ ident ++ ", got " ++ cborDebugString st.cbor))
  | none =>
      .ok (addError st
        ("expected type " ++ ident ++ ", got " ++ cborDebugString st.cbor))

/-- The entry-counts gate shared by the three array blocks: when items are
matched positionally and the array may not be empty, a pending entry-counts
constraint is taken and checked against the array length; the Bool result
directs an early return after the recorded error. -/
def entryCountsGate (st : St) (iter_items allowEmpty : Bool) (len : Nat) :
    St × Bool :=
  if !iter_items && !allowEmpty then
    match st.entry_counts with
    | some ec =>
        let st := { st with entry_counts := none }
        if ec.any (fun c => c = len) then (st, false)
        else
          (addError st
            ("expecting array with one of the lengths in " ++ toString ec ++
             ", got " ++ toString len), true)
    | none => (st, false)
  else (st, false)

/-- The generic-parameter registration of visit_type_rule and
visit_group_rule: the existing frame for the rule name has its parameters
replaced, otherwise a fresh frame with empty arguments is pushed. -/
def registerGenericParams (rs : List GenericRule) (name : String)
    (gp : List String) : List GenericRule :=
  if rs.any (fun r => r.name = name) then
    updateFirstGeneric rs name (fun r => { r with params := gp })
  else
    rs ++ [{ name := name, params := gp, args := [] }]

/-- The argument-binding step of a generic instantiation: arguments are
appended to the existing frame for the rule name, otherwise a fresh frame
with the parameters of the rule is pushed (when the rule has any). -/
def appendGenericArgs (rs : List GenericRule) (name : String)
    (args : List Type1) (rule : Rule) : List GenericRule :=
  if rs.any (fun gr => gr.name = name) then
    updateFirstGeneric rs name (fun gr => { gr with args := gr.args ++ args })
  else
    match generic_params_from_rule rule with
    | some params => rs ++ [{ name := name, params := params, args := args }]
    | none => rs

/-- Lookup of the generic argument bound to a parameter name: parameters are
scanned in order and the argument at the matching index is returned when
present (visit_identifier, generic-parameter substitution). -/
def findGenericArg : List String → List Type1 → String → Option Type1
  | [], _, _ => none
  | p :: ps, args, ident =>
      if p = ident then
        match args with
        | a :: _ => some a
        | [] => findGenericArg ps [] ident
      else findGenericArg ps args.tail ident

/-- The UTF-8 bytes of a string (str::as_bytes). -/
def strBytes (s : String) : List Nat :=
  s.toUTF8.toList.map (fun b => b.toNat)

/-- Machine epsilon of f64 (2 to the power -52), used by the float equality
arms of visit_value. -/
def f64Epsilon : Rat := 1 / 4503599627370496

/-- Release-mode i128 arithmetic: the mathematical value reduced modulo
2 to the 128 and mapped into the signed range. The source computes
256i128.pow(v as u32) in the .size guard, which overflows i128 for
exponents of 16 and above; release builds wrap, and the wrapped result of
a product chain is exactly this function of the exact product. -/
def i128wrap (x : Int) : Int :=
  if x % (2:Int) ^ 128 < (2:Int) ^ 127 then x % (2:Int) ^ 128
  else x % (2:Int) ^ 128 - (2:Int) ^ 128

/-- The Integer branch of visit_value: the error message, if any, for a
literal compared against CBOR integer i under the active control operator.
Guard failures fall through to the catch-all message, as in the source
match. -/
def integerValueError (ctrl : Option Token) (value : TokenValue) (i : Int) :
    Option String :=
  match value with
  | .INT v =>
      match ctrl with
      | some .NE =>
          if i ≠ v then none
          else some ("expected value " ++ tokenToString .NE ++ " " ++
            toString v ++ ", got " ++ toString i)
      | some .LT =>
          if i < v then none
          else some ("expected value " ++ tokenToString .LT ++ " " ++
            toString v ++ ", got " ++ toString i)
      | some .LE =>
          if i ≤ v then none
          else some ("expected value " ++ tokenToString .LE ++ " " ++
            toString v ++ ", got " ++ toString i)
      | some .GT =>
          if i > v then none
          else some ("expected value " ++ tokenToString .GT ++ " " ++
            toString v ++ ", got " ++ toString i)
      | some .GE =>
          if i ≥ v then none
          else some ("expected value " ++ tokenToString .GE ++ " " ++
            toString v ++ ", got " ++ toString i)
      | none =>
          if i = v then none
          else some ("expected value " ++ toString v ++ ", got " ++ toString i)
      | some c =>
          some ("expected value " ++ tokenToString c ++ " " ++ toString v ++
            ", got " ++ toString i)
  | .UINT v =>
      match ctrl with
      | some .NE =>
          if i ≠ (v : Int) then none
          else some ("expected value " ++ tokenToString .NE ++ " " ++
            toString v ++ ", got " ++ toString i)
      | some .LT =>
          if i < (v : Int) then none
          else some ("expected value " ++ tokenToString .LT ++ " " ++
            toString v ++ ", got " ++ toString i)
      | some .LE =>
          if i ≤ (v : Int) then none
          else some ("expected value " ++ tokenToString .LE ++ " " ++
            toString v ++ ", got " ++ toString i)
      | some .GT =>
          if i > (v : Int) then none
          else some ("expected value " ++ tokenToString .GT ++ " " ++
            toString v ++ ", got " ++ toString i)
      | some .GE =>
          if i ≥ (v : Int) then none
          else some ("expected value " ++ tokenToString .GE ++ " " ++
            toString v ++ ", got " ++ toString i)
      | some .SIZE =>
          if i < i128wrap ((256 : Int) ^ (v % 2 ^ 32)) then none
          else some ("expected value " ++ tokenToString .SIZE ++ " " ++
            toString v ++ ", got " ++ toString i)
      | none =>
          if i = (v : Int) then none
          else some ("expected value " ++ toString v ++ ", got " ++ toString i)
      | some c =>
          some ("expected value " ++ tokenToString c ++ " " ++ toString v ++
            ", got " ++ toString i)
  | _ => some ("expected " ++ tokenValueToString value ++ ", got " ++ toString i)

/-- The Float branch of visit_value: the error message, if any, for a
literal compared against CBOR float f under the active control operator. -/
def floatValueError (ctrl : Option Token) (value : TokenValue) (f : Rat) :
    Option String :=
  match value with
  | .FLOAT v =>
      match ctrl with
      | some .NE =>
          if |f - v| > f64Epsilon then none
          else some ("expected value " ++ tokenToString .NE ++ " " ++
            toString v ++ ", got " ++ toString f)
      | some .LT =>
          if f < v then none
          else some ("expected value " ++ tokenToString .LT ++ " " ++
            toString v ++ ", got " ++ toString f)
      | some .LE =>
          if f ≤ v then none
          else some ("expected value " ++ tokenToString .LE ++ " " ++
            toString v ++ ", got " ++ toString f)
      | some .GT =>
          if f > v then none
          else some ("expected value " ++ tokenToString .GT ++ " " ++
            toString v ++ ", got " ++ toString f)
      | some .GE =>
          if f ≥ v then none
          else some ("expected value " ++ tokenToString .GE ++ " " ++
            toString v ++ ", got " ++ toString f)
      | none =>
          if |f - v| < f64Epsilon then none
          else some ("expected value " ++ toString v ++ ", got " ++ toString f)
      | some c =>
          some ("expected value " ++ tokenToString c ++ " " ++ toString v ++
            ", got " ++ toString f)
  | _ => some ("expected " ++ tokenValueToString value ++ ", got " ++ toString f)

/-- The integer/integer range comparison of visit_range. -/
def intRangeCheck (st : St) (l u : Int) (incl : Bool) : St :=
  let error_str :=
    if incl then
      "expected integer to be in range " ++ toString l ++ " <= value <= " ++
        toString u ++ ", got " ++ cborDebugString st.cbor
    else
      "expected integer to be in range " ++ toString l ++ " < value < " ++
        toString u ++ ", got " ++ cborDebugString st.cbor
  match st.cbor with
  | .integer i =>
      if incl then
        if i < l ∨ i > u then addError st error_str else st
      else
        if i ≤ l ∨ i ≥ u then addError st error_str else st
  | _ => addError st error_str

/-- The uint/uint range comparison of visit_range, including the
string-length form under the size control. -/
def uintRangeCheck (st : St) (l u : Nat) (incl : Bool) : St :=
  let error_str :=
    if incl then
      "expected uint to be in range " ++ toString l ++ " <= value <= " ++
        toString u ++ ", got " ++ cborDebugString st.cbor
    else
      "expected uint to be in range " ++ toString l ++ " < value < " ++
        toString u ++ ", got " ++ cborDebugString st.cbor
  match st.cbor with
  | .integer i =>
      if incl then
        if i < (l : Int) ∨ i > (u : Int) then addError st error_str else st
      else
        if i ≤ (l : Int) ∨ i ≥ (u : Int) then addError st error_str else st
  | .text s =>
      (match st.ctrl with
       | some .SIZE =>
           if incl then
             if s.utf8ByteSize < l ∨ s.utf8ByteSize > u then
               addError st
                 ("expected \"" ++ s ++
                  "\" string length to be in the range " ++ toString l ++
                  " <= value <= " ++ toString u ++ ", got " ++
                  toString s.utf8ByteSize)
             else st
           else
             if s.utf8ByteSize ≤ l ∨ s.utf8ByteSize ≥ u then
               addError st
                 ("expected \"" ++ s ++
                  "\" string length to be in the range " ++ toString l ++
                  " < value < " ++ toString u ++ ", got " ++
                  toString s.utf8ByteSize)
             else st
       | _ =>
           addError st
             "string value cannot be validated against a range without the .size control operator")
  | _ => addError st error_str

/-- The float/float range comparison of visit_range. -/
def floatRangeCheck (st : St) (l u : Rat) (incl : Bool) : St :=
  let error_str :=
    if incl then
      "expected float to be in range " ++ toString l ++ " <= value <= " ++
        toString u ++ ", got " ++ cborDebugString st.cbor
    else
      "expected float to be in range " ++ toString l ++ " < value < " ++
        toString u ++ ", got " ++ cborDebugString st.cbor
  match st.cbor with
  | .float f =>
      if incl then
        if f < l ∨ f > u then addError st error_str else st
      else
        if f ≤ l ∨ f ≥ u then addError st error_str else st
  | _ => addError st error_str

mutual

/-- Rule dispatch (walk_rule of the visitor). -/
def visitRule (cddl : CDDL) : Nat → Rule → St → VisitM
  | 0, _, _ => .error .noFuel
  | fuel + 1, r, st =>
      match r with
      | .TypeR tr => visitTypeRule cddl fuel tr st
      | .GroupR gr => visitGroupRule cddl fuel gr st
termination_by structural fuel _ _ => fuel

/-- visit_type_rule: registers generic parameters, then walks the
type-choice alternates of the rule name, truncating errors back to the
entry watermark on the first alternate that validates. -/
def visitTypeRule (cddl : CDDL) : Nat → TypeRule → St → VisitM
  | 0, _, _ => .error .noFuel
  | fuel + 1, tr, st =>
      let st :=
        match tr.generic_params with
        | some gp =>
            let grs := registerGenericParams st.generic_rules tr.name gp
            { st with generic_rules := grs }
        | none => st
      visitTypeRuleLoop cddl fuel
        (type_choice_alternates_from_ident cddl tr.name) st.errors.length st
termination_by structural fuel _ _ => fuel

/-- The alternate loop of visit_type_rule. -/
def visitTypeRuleLoop (cddl : CDDL) :
    Nat → List TypeAst → Nat → St → VisitM
  | 0, _, _, _ => .error .noFuel
  | _ + 1, [], _, st => .ok st
  | fuel + 1, t :: rest, error_count, st => do
      let cur_errors := st.errors.length
      let st ← visitType cddl fuel t st
      if st.errors.length = cur_errors then
        .ok (truncErrors st error_count)
      else
        visitTypeRuleLoop cddl fuel rest error_count st
termination_by structural fuel _ _ _ => fuel

/-- visit_group_rule: registers generic parameters, then walks the
group-choice alternates of the rule name with the same watermark scheme. -/
def visitGroupRule (cddl : CDDL) : Nat → GroupRule → St → VisitM
  | 0, _, _ => .error .noFuel
  | fuel + 1, gr, st =>
      let st :=
        match gr.generic_params with
        | some gp =>
            let grs := registerGenericParams st.generic_rules gr.name gp
            { st with generic_rules := grs }
        | none => st
      visitGroupRuleLoop cddl fuel
        (group_choice_alternates_from_ident cddl gr.name) st.errors.length st
termination_by structural fuel _ _ => fuel

/-- The alternate loop of visit_group_rule. -/
def visitGroupRuleLoop (cddl : CDDL) :
    Nat → List GroupEntry → Nat → St → VisitM
  | 0, _, _, _ => .error .noFuel
  | _ + 1, [], _, st => .ok st
  | fuel + 1, ge :: rest, error_count, st => do
      let cur_errors := st.errors.length
      let st ← visitGroupEntry cddl fuel ge st
      if st.errors.length = cur_errors then
        .ok (truncErrors st error_count)
      else
        visitGroupRuleLoop cddl fuel rest error_count st
termination_by structural fuel _ _ _ => fuel

/-- visit_type: marks multi-choice, then walks the type choices with the
watermark scheme (section 4.2 of the spec). -/
def visitType (cddl : CDDL) : Nat → TypeAst → St → VisitM
  | 0, _, _ => .error .noFuel
  | fuel + 1, .mk type_choices, st =>
      let st :=
        if type_choices.length > 1 then { st with is_multi_type_choice := true }
        else st
      visitTypeChoicesLoop cddl fuel type_choices st.errors.length st
termination_by structural fuel _ _ => fuel

/-- The choice loop of visit_type (also used by the group-to-choice
enumeration of visit_group_choice, whose loop body is identical): on a
choice that adds no error, errors are truncated back to the initial
watermark and the walk succeeds. -/
def visitTypeChoicesLoop (cddl : CDDL) :
    Nat → List Type1 → Nat → St → VisitM
  | 0, _, _, _ => .error .noFuel
  | _ + 1, [], _, st => .ok st
  | fuel + 1, tc :: rest, initial, st => do
      let error_count := st.errors.length
      let st ← visitTypeChoice cddl fuel tc st
      if st.errors.length = error_count then
        .ok (truncErrors st initial)
      else
        visitTypeChoicesLoop cddl fuel rest initial st
termination_by structural fuel _ _ _ => fuel

/-- visit_type_choice (default walk: visit the underlying Type1). -/
def visitTypeChoice (cddl : CDDL) : Nat → Type1 → St → VisitM
  | 0, _, _ => .error .noFuel
  | fuel + 1, tc, st => visitType1 cddl fuel tc st
termination_by structural fuel _ _ => fuel

/-- visit_type1 (default walk): dispatches on the optional range or control
operator. -/
def visitType1 (cddl : CDDL) : Nat → Type1 → St → VisitM
  | 0, _, _ => .error .noFuel
  | fuel + 1, .mk t2 op, st =>
      match op with
      | some (.rangeOp incl upper) => visitRange cddl fuel t2 upper incl st
      | some (.ctlOp c upper) => visitControlOperator cddl fuel t2 c upper st
      | none => visitType2 cddl fuel t2 st
termination_by structural fuel _ _ => fuel

/-- visit_group: marks multi-choice, applies the map equality/inequality
check when the eq/ne control targets a map, then walks the group choices
with the watermark scheme. -/
def visitGroup (cddl : CDDL) : Nat → Group → St → VisitM
  | 0, _, _ => .error .noFuel
  | fuel + 1, .mk group_choices, st =>
      let st :=
        if group_choices.length > 1 then
          { st with is_multi_group_choice := true }
        else st
      let mapEq : Option St :=
        if st.is_ctrl_map_equality then
          match st.ctrl, st.cbor with
          | some t, .map m =>
              let entry_counts :=
                group_choices.map (entry_counts_from_group_choice cddl)
              let len := m.length
              if t = .EQ then
                if entry_counts.any (fun c => len = c) then none
                else some (addError st
                  ("map equality error. expected object to have one of " ++
                   toString entry_counts ++
                   " number of key/value pairs, got " ++ toString len))
              else if t = .NE then
                if entry_counts.any (fun c => len ≠ c) then none
                else some (addError st
                  ("map inequality error. expected object to not have one of "
                   ++ toString entry_counts ++
                   " number of key/value pairs, got " ++ toString len))
              else none
          | _, _ => none
        else none
      match mapEq with
      | some st => .ok st
      | none =>
          let st := { st with is_ctrl_map_equality := false }
          visitGroupChoicesLoop cddl fuel group_choices st.errors.length st
termination_by structural fuel _ _ => fuel

/-- The choice loop of visit_group. -/
def visitGroupChoicesLoop (cddl : CDDL) :
    Nat → List GroupChoice → Nat → St → VisitM
  | 0, _, _, _ => .error .noFuel
  | _ + 1, [], _, st => .ok st
  | fuel + 1, gc :: rest, initial, st => do
      let error_count := st.errors.length
      let st ← visitGroupChoice cddl fuel gc st
      if st.errors.length = error_count then
        .ok (truncErrors st initial)
      else
        visitGroupChoicesLoop cddl fuel rest initial st
termination_by structural fuel _ _ _ => fuel

/-- visit_group_choice: under the group-to-choice enumeration flag the
entries enumerate as type choices; otherwise the entries are visited in
order with the positional index recorded. -/
def visitGroupChoice (cddl : CDDL) : Nat → GroupChoice → St → VisitM
  | 0, _, _ => .error .noFuel
  | fuel + 1, gc, st =>
      if st.is_group_to_choice_enum then
        visitTypeChoicesLoop cddl fuel
          (type_choices_from_group_choice cddl gc) st.errors.length st
      else
        match gc with
        | .mk ges => visitGroupEntriesLoop cddl fuel 0 ges st
termination_by structural fuel _ _ => fuel

/-- The entry loop of visit_group_choice. -/
def visitGroupEntriesLoop (cddl : CDDL) :
    Nat → Nat → List GroupEntry → St → VisitM
  | 0, _, _, _ => .error .noFuel
  | _ + 1, _, [], st => .ok st
  | fuel + 1, idx, ge :: rest, st => do
      let st := { st with group_entry_idx := some idx }
      let st ← visitGroupEntry cddl fuel ge st
      visitGroupEntriesLoop cddl fuel (idx + 1) rest st
termination_by structural fuel _ _ _ => fuel

/-- Modelled from the spec: group-entry dispatch (walk_group_entry of the
visitor); occurrences of named and inline group entries are recorded before
descending (section 4.7). -/
def visitGroupEntry (cddl : CDDL) : Nat → GroupEntry → St → VisitM
  | 0, _, _ => .error .noFuel
  | fuel + 1, ge, st =>
      match ge with
      | .ValueMemberKey occ mk t =>
          visitValueMemberKeyEntry cddl fuel occ mk t st
      | .TypeGroupname occ name ga =>
          let st :=
            match occ with
            | some o => visitOccurrence st o
            | none => st
          visitTypeGroupnameEntry cddl fuel name ga st
      | .InlineGroup occ g =>
          let st :=
            match occ with
            | some o => visitOccurrence st o
            | none => st
          visitGroup cddl fuel g st
termination_by structural fuel _ _ => fuel

/-- visit_value_member_key_entry: records the occurrence, visits the member
key (marking advance_to_next_entry when the key does not match), then
checks the hoisted object value, or the current value, against the entry
type. -/
def visitValueMemberKeyEntry (cddl : CDDL) :
    Nat → Option Occur → Option MemberKey → TypeAst → St → VisitM
  | 0, _, _, _, _ => .error .noFuel
  | fuel + 1, occur, member_key, entry_type, st =>
      let st :=
        match occur with
        | some o => visitOccurrence st o
        | none => st
      let current_location := st.cbor_location
      match member_key with
      | some mk => do
          let error_count := st.errors.length
          let st := { st with is_member_key := true }
          let st ← visitMemberkey cddl fuel mk st
          let st := { st with is_member_key := false }
          if st.errors.length ≠ error_count then
            .ok { st with advance_to_next_entry := true }
          else
            visitVmkeValueCheck cddl fuel current_location occur entry_type st
      | none => visitVmkeValueCheck cddl fuel current_location occur entry_type st
termination_by structural fuel _ _ _ _ => fuel

/-- The value-check tail of visit_value_member_key_entry: a hoisted object
value is validated in a subvalidator whose errors are merged back and whose
occurrence is consumed; otherwise, unless the entry is being skipped, the
entry type is checked against the current value. -/
def visitVmkeValueCheck (cddl : CDDL) :
    Nat → String → Option Occur → TypeAst → St → VisitM
  | 0, _, _, _, _ => .error .noFuel
  | fuel + 1, current_location, occur, entry_type, st =>
      match st.object_value with
      | some v => do
          let st := { st with object_value := none }
          let jv : St :=
            { newValidator v with
              generic_rules := st.generic_rules
              eval_generic_rule := st.eval_generic_rule
              is_multi_type_choice := st.is_multi_type_choice
              is_multi_group_choice := st.is_multi_group_choice
              cbor_location := st.cbor_location
              type_group_name_entry := st.type_group_name_entry }
          let jv2 ← visitType cddl fuel entry_type jv
          let st := { st with cbor_location := current_location }
          let st := { st with errors := st.errors ++ jv2.errors }
          let st := if occur.isSome then { st with occurence := none } else st
          .ok st
      | none =>
          if !st.advance_to_next_entry then
            visitType cddl fuel entry_type st
          else .ok st
termination_by structural fuel _ _ _ _ => fuel

/-- visit_type_groupname_entry: records the entry name for diagnostics
around the default walk. -/
def visitTypeGroupnameEntry (cddl : CDDL) :
    Nat → String → Option (List Type1) → St → VisitM
  | 0, _, _, _ => .error .noFuel
  | fuel + 1, name, ga, st => do
      let st := { st with type_group_name_entry := some name }
      let st ← walkTypeGroupname cddl fuel name ga st
      .ok { st with type_group_name_entry := none }
termination_by structural fuel _ _ _ => fuel

/-- Modelled from the spec: walk_type_groupname_entry — with generic
arguments the referenced rule is instantiated (section 4.4), otherwise the
name is resolved through visit_identifier (section 4.7). -/
def walkTypeGroupname (cddl : CDDL) :
    Nat → String → Option (List Type1) → St → VisitM
  | 0, _, _, _ => .error .noFuel
  | fuel + 1, name, ga, st =>
      match ga with
      | some args =>
          match rule_from_ident cddl name with
          | some rule =>
              visitGenericInstantiation cddl fuel name args rule false st
          | none => visitIdentifier cddl fuel name st
      | none => visitIdentifier cddl fuel name st
termination_by structural fuel _ _ _ => fuel

/-- The shared generic-instantiation path of Typename and ChoiceFromGroup:
the binding frame for the rule name is extended (or pushed), a subvalidator
is spawned on a clone of the current value with eval_generic_rule set (and,
for the choice form, the enumeration flag), and its errors are merged
back. -/
def visitGenericInstantiation (cddl : CDDL) :
    Nat → String → List Type1 → Rule → Bool → St → VisitM
  | 0, _, _, _, _, _ => .error .noFuel
  | fuel + 1, ident, args, rule, enumFlag, st => do
      let st :=
        let grs := appendGenericArgs st.generic_rules ident args rule
        { st with generic_rules := grs }
      let jv : St :=
        { newValidator st.cbor with
          generic_rules := st.generic_rules
          eval_generic_rule := some ident
          is_group_to_choice_enum := enumFlag
          is_multi_type_choice := st.is_multi_type_choice }
      let jv2 ← visitRule cddl fuel rule jv
      .ok { st with errors := st.errors ++ jv2.errors }
termination_by structural fuel _ _ _ _ _ => fuel

/-- visit_memberkey: records the cut flag of the arrow form, then walks the
member key (walk_memberkey is modelled from the spec: the Type1 form visits
its type, a bareword visits the identifier, a literal visits the value). -/
def visitMemberkey (cddl : CDDL) : Nat → MemberKey → St → VisitM
  | 0, _, _ => .error .noFuel
  | fuel + 1, mk, st =>
      let st :=
        match mk with
        | .Type1M _ is_cut => { st with is_cut_present := is_cut }
        | _ => st
      match mk with
      | .Type1M t1 _ => visitType1 cddl fuel t1 st
      | .Bareword id => visitIdentifier cddl fuel id st
      | .ValueM v => visitValue cddl fuel v st
      | .NonMemberKey => .ok st
termination_by structural fuel _ _ => fuel

/-- visit_range: on arrays, occurrence-directed iteration or positional
matching with the range re-checked on elements; otherwise the
integer/uint/float range comparisons, with the uint form also accepting a
string length under the size control. -/
def visitRange (cddl : CDDL) : Nat → Type2 → Type2 → Bool → St → VisitM
  | 0, _, _, _, _ => .error .noFuel
  | fuel + 1, lower, upper, incl, st =>
      match st.cbor with
      | .array a =>
          let allowEmpty := occIsOptional st.occurence
          match validate_array_occurrence st.occurence a with
          | .error e => .ok (addError st e)
          | .ok iter_items =>
              let (st, stop) := entryCountsGate st iter_items allowEmpty a.length
              if stop then .ok st
              else if iter_items then
                visitRangeElemsLoop cddl fuel 0 a lower upper incl st
              else
                match st.group_entry_idx with
                | some idx =>
                    let st := { st with group_entry_idx := none }
                    match a.get? idx with
                    | some v => do
                        let jv := elemValidator st v idx
                        let jv2 ← visitRange cddl fuel lower upper incl jv
                        .ok { st with errors := st.errors ++ jv2.errors }
                    | none =>
                        if !allowEmpty then
                          .ok (addError st
                            ("expected array item at index " ++ toString idx))
                        else .ok st
                | none =>
                    .ok (addError st
                      ("expected range lower " ++ type2ToString lower ++
                       " upper " ++ type2ToString upper ++ " inclusive " ++
                       toString incl ++ ", got " ++ cborDebugString st.cbor))
      | _ =>
          match lower with
          | .IntValue l =>
              match upper with
              | .IntValue u => .ok (intRangeCheck st l u incl)
              | .UintValue u => .ok (intRangeCheck st l u incl)
              | _ =>
                  .ok (addError st
                    ("invalid cddl range. upper value must be an integer type. got "
                     ++ type2ToString upper))
          | .UintValue l =>
              match upper with
              | .UintValue u => .ok (uintRangeCheck st l u incl)
              | _ =>
                  .ok (addError st
                    ("invalid cddl range. upper value must be a uint type. got "
                     ++ type2ToString upper))
          | .FloatValue l =>
              match upper with
              | .FloatValue u => .ok (floatRangeCheck st l u incl)
              | _ =>
                  .ok (addError st
                    ("invalid cddl range. upper value must be a float type. got "
                     ++ type2ToString upper))
          | _ =>
              .ok (addError st
                "invalid cddl range. upper and lower values must be either integers or floats")
termination_by structural fuel _ _ _ _ => fuel

/-- The element loop of the array block of visit_range. -/
def visitRangeElemsLoop (cddl : CDDL) :
    Nat → Nat → List CborValue → Type2 → Type2 → Bool → St → VisitM
  | 0, _, _, _, _, _, _ => .error .noFuel
  | _ + 1, _, [], _, _, _, st => .ok st
  | fuel + 1, idx, v :: rest, lower, upper, incl, st => do
      let jv := elemValidator st v idx
      let jv2 ← visitRange cddl fuel lower upper incl jv
      let st := { st with errors := st.errors ++ jv2.errors }
      visitRangeElemsLoop cddl fuel (idx + 1) rest lower upper incl st
termination_by structural fuel _ _ _ _ _ _ => fuel

/-- visit_control_operator: dispatch on the looked-up control token
(section 4.3 of the spec). -/
def visitControlOperator (cddl : CDDL) :
    Nat → Type2 → String → Type2 → St → VisitM
  | 0, _, _, _, _ => .error .noFuel
  | fuel + 1, target, ctrl, controller, st =>
      match lookup_control_from_str ctrl with
      | some .EQ =>
          (match target with
           | .Typename ident _ =>
               if is_ident_string_data_type cddl ident ||
                  is_ident_numeric_data_type cddl ident then
                 visitType2 cddl fuel controller st
               else .ok st
           | .ArrayT (.mk gcs) =>
               (match st.cbor with
                | .array _ => do
                    let entry_counts :=
                      gcs.map (entry_counts_from_group_choice cddl)
                    let st := { st with entry_counts := some entry_counts }
                    let st ← visitType2 cddl fuel controller st
                    .ok { st with entry_counts := none }
                | _ => .ok st)
           | .MapT _ =>
               (match st.cbor with
                | .map _ => do
                    let st := { st with ctrl := some .EQ }
                    let st := { st with is_ctrl_map_equality := true }
                    let st ← visitType2 cddl fuel controller st
                    .ok { st with ctrl := none, is_ctrl_map_equality := false }
                | _ => .ok st)
           | _ =>
               .ok (addError st
                 ("target for .eq operator must be a string, numerical, array or map data type, got "
                  ++ type2ToString target)))
      | some .NE =>
          (match target with
           | .Typename ident _ =>
               if is_ident_string_data_type cddl ident ||
                  is_ident_numeric_data_type cddl ident then do
                 let st := { st with ctrl := some .NE }
                 let st ← visitType2 cddl fuel controller st
                 .ok { st with ctrl := none }
               else .ok st
           | .ArrayT _ =>
               (match st.cbor with
                | .array _ => do
                    let st := { st with ctrl := some .NE }
                    let st ← visitType2 cddl fuel controller st
                    .ok { st with ctrl := none }
                | _ => .ok st)
           | .MapT _ =>
               (match st.cbor with
                | .map _ => do
                    let st := { st with ctrl := some .NE }
                    let st := { st with is_ctrl_map_equality := true }
                    let st ← visitType2 cddl fuel controller st
                    .ok { st with ctrl := none, is_ctrl_map_equality := false }
                | _ => .ok st)
           | _ =>
               .ok (addError st
                 ("target for .ne operator must be a string, numerical, array or map data type, got "
                  ++ type2ToString target)))
      | some .LT | some .GT | some .GE | some .LE =>
          (match target with
           | .Typename ident _ =>
               if is_ident_numeric_data_type cddl ident then do
                 let st := { st with ctrl := lookup_control_from_str ctrl }
                 let st ← visitType2 cddl fuel controller st
                 .ok { st with ctrl := none }
               else
                 .ok (addError st
                   ("target for .lt, .gt, .ge or .le operator must be a numerical data type, got "
                    ++ type2ToString target))
           | _ =>
               .ok (addError st
                 ("target for .lt, .gt, .ge or .le operator must be a numerical data type, got "
                  ++ type2ToString target)))
      | some .SIZE =>
          (match target with
           | .Typename ident _ =>
               if is_ident_string_data_type cddl ident ||
                  is_ident_uint_data_type cddl ident then do
                 let st := { st with ctrl := some .SIZE }
                 let st ← visitType2 cddl fuel controller st
                 .ok { st with ctrl := none }
               else
                 .ok (addError st
                   ("target for .size must a string or uint data type, got "
                    ++ type2ToString target))
           | _ =>
               .ok (addError st
                 ("target for .size must a string or uint data type, got "
                  ++ type2ToString target)))
      | some .AND => do
          let st := { st with ctrl := some .AND }
          let st ← visitType2 cddl fuel target st
          let st ← visitType2 cddl fuel controller st
          .ok { st with ctrl := none }
      | some .WITHIN => do
          let st := { st with ctrl := some .WITHIN }
          let error_count := st.errors.length
          let st ← visitType2 cddl fuel target st
          let no_errors := st.errors.length = error_count
          let st ← visitType2 cddl fuel controller st
          let st :=
            if no_errors ∧ st.errors.length > error_count then
              addError (truncErrors st error_count)
                ("expected type " ++ type2ToString target ++ " .within type " ++
                 type2ToString controller ++ ", got " ++ cborDebugString st.cbor)
            else st
          .ok { st with ctrl := none }
      | some .DEFAULT => do
          let st := { st with ctrl := some .DEFAULT }
          let error_count := st.errors.length
          let st ← visitType2 cddl fuel target st
          let st :=
            if st.errors.length ≠ error_count then
              let occ := st.occurence
              let st := { st with occurence := none }
              match occ with
              | some .Optional =>
                  addError st
                    ("expected default value " ++ type2ToString controller ++
                     ", got " ++ cborDebugString st.cbor)
              | _ => st
            else st
          .ok { st with ctrl := none }
      | some .REGEXP | some .PCRE => do
          let st := { st with ctrl := lookup_control_from_str ctrl }
          let st ←
            match target with
            | .Typename ident _ =>
                if is_ident_string_data_type cddl ident then
                  match st.cbor with
                  | .text _ => visitType2 cddl fuel controller st
                  | _ =>
                      .ok (addError st
                        (".regexp/.pcre control can only be matched against cbor string, got "
                         ++ cborDebugString st.cbor))
                else
                  .ok (addError st
                    (".regexp/.pcre contro9l can only be matched against string data type, got "
                     ++ type2ToString target))
            | _ =>
                .ok (addError st
                  (".regexp/.pcre contro9l can only be matched against string data type, got "
                   ++ type2ToString target))
          .ok { st with ctrl := none }
      | _ => .ok (addError st ("unsupported control operator " ++ ctrl))
termination_by structural fuel _ _ _ _ => fuel

/-- visit_type2: the Type2 dispatch (section 4.4 of the spec). -/
def visitType2 (cddl : CDDL) : Nat → Type2 → St → VisitM
  | 0, _, _ => .error .noFuel
  | fuel + 1, t2, st =>
      match t2 with
      | .TextValue v => visitValue cddl fuel (.TEXT v) st
      | .MapT group =>
          (match st.cbor with
           | .map _ => do
               let st ← visitGroup cddl fuel group st
               .ok { st with is_cut_present := false, cut_value := none }
           | .array a =>
               if st.is_member_key then .ok st
               else
                 let allowEmpty := occIsOptional st.occurence
                 match validate_array_occurrence st.occurence a with
                 | .error e => .ok (addError st e)
                 | .ok iter_items =>
                     let (st, stop) :=
                       entryCountsGate st iter_items allowEmpty a.length
                     if stop then .ok st
                     else if iter_items then
                       visitMapArrElemsLoop cddl fuel 0 a group st
                     else
                       match st.group_entry_idx with
                       | some idx =>
                           let st := { st with group_entry_idx := none }
                           match a.get? idx with
                           | some v => do
                               let jv := elemValidator st v idx
                               let jv2 ← visitGroup cddl fuel group jv
                               .ok { st with errors := st.errors ++ jv2.errors }
                           | none =>
                               if !allowEmpty then
                                 .ok (addError st
                                   ("expected map object " ++
                                    groupToString group ++ " at index " ++
                                    toString idx))
                               else .ok st
                       | none =>
                           .ok (addError st
                             ("expected map object " ++ groupToString group ++
                              ", got " ++ cborDebugString st.cbor))
           | _ =>
               .ok (addError st
                 ("expected map object " ++ type2ToString t2 ++ ", got " ++
                  cborDebugString st.cbor)))
      | .ArrayT group =>
          (match st.cbor with
           | .array _ => do
               let ec :=
                 match group with
                 | .mk gcs => gcs.map (entry_counts_from_group_choice cddl)
               let st := { st with entry_counts := some ec }
               let st ← visitGroup cddl fuel group st
               .ok { st with entry_counts := none }
           | _ =>
               .ok (addError st
                 ("expected array type, got " ++ cborDebugString st.cbor)))
      | .ChoiceFromGroup ident ga =>
          (match ga with
           | some args =>
               (match rule_from_ident cddl ident with
                | some rule =>
                    visitGenericInstantiation cddl fuel ident args rule true st
                | none => choiceFromGroupNoArgs cddl fuel ident st)
           | none => choiceFromGroupNoArgs cddl fuel ident st)
      | .ChoiceFromInlineGroup group => do
          let st := { st with is_group_to_choice_enum := true }
          let st ← visitGroup cddl fuel group st
          .ok { st with is_group_to_choice_enum := false }
      | .Typename ident ga =>
          (match ga with
           | some args =>
               (match rule_from_ident cddl ident with
                | some rule =>
                    visitGenericInstantiation cddl fuel ident args rule false st
                | none => visitIdentifier cddl fuel ident st)
           | none => visitIdentifier cddl fuel ident st)
      | .IntValue v => visitValue cddl fuel (.INT v) st
      | .UintValue v => visitValue cddl fuel (.UINT v) st
      | .FloatValue v => visitValue cddl fuel (.FLOAT v) st
      | .ParenthesizedType pt => visitType cddl fuel pt st
      | .Any => .ok st
      | .other d =>
          .ok (addError st ("unsupported data type for validating cbor, got " ++ d))
termination_by structural fuel _ _ => fuel

/-- The non-generic tail of the ChoiceFromGroup arm: the identifier must
resolve to a group rule; it is then visited under the enumeration flag. -/
def choiceFromGroupNoArgs (cddl : CDDL) : Nat → String → St → VisitM
  | 0, _, _ => .error .noFuel
  | fuel + 1, ident, st =>
      if (group_rule_from_ident cddl ident).isNone then
        .ok (addError st
          ("rule " ++ ident ++ " must be a group rule to turn it into a choice"))
      else do
        let st := { st with is_group_to_choice_enum := true }
        let st ← visitIdentifier cddl fuel ident st
        .ok { st with is_group_to_choice_enum := false }
termination_by structural fuel _ _ => fuel

/-- The element loop of the Map-over-array block of visit_type2. -/
def visitMapArrElemsLoop (cddl : CDDL) :
    Nat → Nat → List CborValue → Group → St → VisitM
  | 0, _, _, _, _ => .error .noFuel
  | _ + 1, _, [], _, st => .ok st
  | fuel + 1, idx, v :: rest, group, st => do
      let jv := elemValidator st v idx
      let jv2 ← visitGroup cddl fuel group jv
      let st := { st with errors := st.errors ++ jv2.errors }
      visitMapArrElemsLoop cddl fuel (idx + 1) rest group st
termination_by structural fuel _ _ _ _ => fuel

/-- visit_identifier: generic-parameter substitution, rule resolution, then
the per-value-kind prelude checks (section 4.6 of the spec); guard failures
fall to the catch-all cut-annotated mismatch. -/
def visitIdentifier (cddl : CDDL) : Nat → String → St → VisitM
  | 0, _, _ => .error .noFuel
  | fuel + 1, ident, st =>
      let genericArg : Option Type1 :=
        match st.eval_generic_rule with
        | some name =>
            match st.generic_rules.find? (fun gr => gr.name = name) with
            | some gr => findGenericArg gr.params gr.args ident
            | none => none
        | none => none
      match genericArg with
      | some arg => visitType1 cddl fuel arg st
      | none =>
          match rule_from_ident cddl ident with
          | some r => visitRule cddl fuel r st
          | none =>
              match st.cbor with
              | .null =>
                  if is_ident_null_data_type cddl ident then .ok st
                  else identFallbackErr st ident
              | .bytes _ =>
                  if is_ident_byte_string_data_type cddl ident then .ok st
                  else identFallbackErr st ident
              | .bool b =>
                  (match lookup_ident ident with
                   | .BOOL => .ok st
                   | .TRUE =>
                       if b then .ok st
                       else
                         .ok (addError st
                           ("expected type " ++ ident ++ ", got " ++
                            cborDebugString st.cbor))
                   | .FALSE =>
                       if !b then .ok st
                       else
                         .ok (addError st
                           ("expected type " ++ ident ++ ", got " ++
                            cborDebugString st.cbor))
                   | _ =>
                       .ok (addError st
                         ("expected type " ++ ident ++ ", got " ++
                          cborDebugString st.cbor)))
              | .integer i =>
                  (match lookup_ident ident with
                   | .INT => .ok st
                   | .INTEGER => .ok st
                   | .UINT =>
                       if 0 ≤ i then .ok st
                       else
                         .ok (addError st
                           ("expected type " ++ ident ++ ", got " ++
                            cborDebugString st.cbor))
                   | _ =>
                       .ok (addError st
                         ("expected type " ++ ident ++ ", got " ++
                          cborDebugString st.cbor)))
              | .float _ =>
                  (match lookup_ident ident with
                   | .FLOAT => .ok st
                   | .FLOAT16 => .ok st
                   | .FLOAT1632 => .ok st
                   | .FLOAT32 => .ok st
                   | .FLOAT3264 => .ok st
                   | .FLOAT64 => .ok st
                   | _ =>
                       .ok (addError st
                         ("expected type " ++ ident ++ ", got " ++
                          cborDebugString st.cbor)))
              | .text _ =>
                  if is_ident_string_data_type cddl ident then .ok st
                  else identFallbackErr st ident
              | .array a =>
                  if st.is_member_key then .ok st
                  else
                    let allowEmpty := occIsOptional st.occurence
                    match validate_array_occurrence st.occurence a with
                    | .error e => .ok (addError st e)
                    | .ok iter_items =>
                        let (st, stop) :=
                          entryCountsGate st iter_items allowEmpty a.length
                        if stop then .ok st
                        else if iter_items then
                          visitIdentElemsLoop cddl fuel 0 a ident st
                        else
                          match st.group_entry_idx with
                          | some idx =>
                              let st := { st with group_entry_idx := none }
                              match a.get? idx with
                              | some v => do
                                  let jv := elemValidator st v idx
                                  let jv2 ← visitIdentifier cddl fuel ident jv
                                  .ok { st with
                                    errors := st.errors ++ jv2.errors }
                              | none =>
                                  if !allowEmpty then
                                    .ok (addError st
                                      ("expected type " ++ ident ++
                                       " at index " ++ toString idx))
                                  else .ok st
                          | none =>
                              .ok (addError st
                                ("expected type " ++ ident ++ ", got " ++
                                 cborDebugString st.cbor))
              | .map m =>
                  let patterned : Option VisitM :=
                    match st.occurence with
                    | some occ =>
                        if occIsZeroOrOneOrMore occ then
                          if occIsOneOrMore occ ∧ m.isEmpty then
                            some (.ok (addError st
                              ("map cannot be empty, require one oe more entries with key type "
                               ++ ident)))
                          else if is_ident_string_data_type cddl ident then
                            if !(m.all (fun e => cborIsText e.1)) then
                              some (.ok (addError st
                                ("map requires entry keys of type " ++ ident)))
                            else some (.ok st)
                          else if is_ident_integer_data_type cddl ident then
                            if !(m.all (fun e => cborIsInteger e.1)) then
                              some (.ok (addError st
                                ("map requires entry keys of type " ++ ident)))
                            else some (.ok st)
                          else none
                        else none
                    | none => none
                  match patterned with
                  | some r => r
                  | none => visitValue cddl fuel (.TEXT ident) st
termination_by structural fuel _ _ => fuel

/-- The element loop of the array block of visit_identifier. -/
def visitIdentElemsLoop (cddl : CDDL) :
    Nat → Nat → List CborValue → String → St → VisitM
  | 0, _, _, _, _ => .error .noFuel
  | _ + 1, _, [], _, st => .ok st
  | fuel + 1, idx, v :: rest, ident, st => do
      let jv := elemValidator st v idx
      let jv2 ← visitIdentifier cddl fuel ident jv
      let st := { st with errors := st.errors ++ jv2.errors }
      visitIdentElemsLoop cddl fuel (idx + 1) rest ident st
termination_by structural fuel _ _ _ _ => fuel

/-- visit_value: literal and member-key matching against the current value
under the active control operator; on maps this performs the member-key
lookup that hoists the object value or reports the missing key. -/
def visitValue (cddl : CDDL) : Nat → TokenValue → St → VisitM
  | 0, _, _ => .error .noFuel
  | fuel + 1, value, st =>
      match st.cbor with
      | .integer i =>
          (match integerValueError st.ctrl value i with
           | some e => .ok (addError st e)
           | none => .ok st)
      | .float f =>
          (match floatValueError st.ctrl value f with
           | some e => .ok (addError st e)
           | none => .ok st)
      | .text s =>
          (match value with
           | .TEXT t =>
               (match st.ctrl with
                | some .NE =>
                    if s ≠ t then .ok st
                    else
                      .ok (addError st
                        ("expected " ++ tokenValueToString value ++
                         " .ne to \"" ++ s ++ "\""))
                | some .REGEXP =>
                    .error (.abort (fromValidator st
                      "external regular expression engine is not modelled"))
                | some .PCRE =>
                    .error (.abort (fromValidator st
                      "external regular expression engine is not modelled"))
                | _ =>
                    if s = t then .ok st
                    else
                      match st.ctrl with
                      | some c =>
                          .ok (addError st
                            ("expected value " ++ tokenToString c ++ " " ++
                             tokenValueToString value ++ ", got \"" ++ s ++ "\""))
                      | none =>
                          .ok (addError st
                            ("expected value " ++ tokenValueToString value ++
                             " got \"" ++ s ++ "\"")))
           | .UINT u =>
               (match st.ctrl with
                | some .SIZE =>
                    if s.utf8ByteSize = u then .ok st
                    else
                      .ok (addError st
                        ("expected \"" ++ s ++ "\" .size " ++ toString u ++
                         ", got " ++ toString s.utf8ByteSize))
                | _ =>
                    .ok (addError st
                      ("expected " ++ toString u ++ ", got " ++ s)))
           | .BYTE (.UTF8 b) =>
               if strBytes s = b then .ok st
               else
                 .ok (addError st
                   ("expected " ++ tokenValueToString value ++ ", got \"" ++
                    s ++ "\""))
           | .BYTE (.B16 b) =>
               if strBytes s = b then .ok st
               else
                 .ok (addError st
                   ("expected " ++ tokenValueToString value ++ ", got \"" ++
                    s ++ "\""))
           | .BYTE (.B64 b) =>
               if strBytes s = b then .ok st
               else
                 .ok (addError st
                   ("expected " ++ tokenValueToString value ++ ", got \"" ++
                    s ++ "\""))
           | _ =>
               .ok (addError st
                 ("expected " ++ tokenValueToString value ++ ", got \"" ++
                  s ++ "\"")))
      | .array a =>
          if st.is_member_key then .ok st
          else
            let allowEmpty := occIsOptional st.occurence
            match validate_array_occurrence st.occurence a with
            | .error e => .ok (addError st e)
            | .ok iter_items =>
                let (st, stop) :=
                  entryCountsGate st iter_items allowEmpty a.length
                if stop then .ok st
                else if iter_items then
                  visitValueElemsLoop cddl fuel 0 a value st
                else
                  match st.group_entry_idx with
                  | some idx =>
                      let st := { st with group_entry_idx := none }
                      match a.get? idx with
                      | some v => do
                          let jv := elemValidator st v idx
                          let jv2 ← visitValue cddl fuel value jv
                          .ok { st with errors := st.errors ++ jv2.errors }
                      | none =>
                          if !allowEmpty then
                            .ok (addError st
                              ("expected value " ++ tokenValueToString value ++
                               " at index " ++ toString idx))
                          else .ok st
                  | none =>
                      .ok (addError st
                        ("expected value " ++ tokenValueToString value ++
                         ", got " ++ cborDebugString st.cbor))
      | .map o =>
          let st :=
            if st.is_cut_present then
              { st with cut_value := some (type1FromTokenValue value) }
            else st
          if value = .TEXT "any" then .ok st
          else
            match mapGet o (token_value_into_cbor_value value) with
            | some v =>
                let loc := st.cbor_location ++ "/" ++ tokenValueToString value
                .ok { st with object_value := some v, cbor_location := loc }
            | none =>
                let occ := st.occurence
                let st := { st with occurence := none }
                match occ with
                | some .Optional => .ok { st with advance_to_next_entry := true }
                | some .ZeroOrMore =>
                    .ok { st with advance_to_next_entry := true }
                | _ =>
                    match st.ctrl with
                    | some .NE => .ok st
                    | _ =>
                        .ok (addError st
                          ("object missing key: \"" ++
                           tokenValueToString value ++ "\""))
      | _ =>
          .ok (addError st
            ("expected " ++ tokenValueToString value ++ ", got " ++
             cborDebugString st.cbor))
termination_by structural fuel _ _ => fuel

/-- The element loop of the array block of visit_value. -/
def visitValueElemsLoop (cddl : CDDL) :
    Nat → Nat → List CborValue → TokenValue → St → VisitM
  | 0, _, _, _, _ => .error .noFuel
  | _ + 1, _, [], _, st => .ok st
  | fuel + 1, idx, v :: rest, value, st => do
      let jv := elemValidator st v idx
      let jv2 ← visitValue cddl fuel value jv
      let st := { st with errors := st.errors ++ jv2.errors }
      visitValueElemsLoop cddl fuel (idx + 1) rest value st
termination_by structural fuel _ _ _ _ => fuel

end

/-- The rule loop of CBORValidator::validate: the first type rule without
generic parameters is visited as the root; group rules and generic type
rules are skipped. -/
def validateRules (cddl : CDDL) (fuel : Nat) : List Rule → St → VisitM
  | [], st => .ok st
  | .TypeR tr :: rest, st =>
      if tr.generic_params.isNone then visitTypeRule cddl fuel tr st
      else validateRules cddl fuel rest st
  | .GroupR _ :: rest, st => validateRules cddl fuel rest st

/-- Outcome of a whole CBOR validation. -/
inductive VResult where
  | ok
  | validationErr (errors : List ValidationError)
  | noFuel

/-- CBORValidator::validate: runs the root rule and classifies the
outcome; a non-empty error list is the validation failure. -/
def validateCbor (fuel : Nat) (cddl : CDDL) (cbor : CborValue) : VResult :=
  match validateRules cddl fuel cddl.rules (newValidator cbor) with
  | .error (.abort e) => .validationErr [e]
  | .error .noFuel => .noFuel
  | .ok st => if st.errors.isEmpty then .ok else .validationErr st.errors

end Cbor

namespace Json

/-- The serde_json number: an unsigned 64-bit integer, a negative signed
64-bit integer, or a float (modelled as a rational; no theorem below
depends on float rounding). -/
inductive JsonNum where
  | posInt (n : Nat)
  | negInt (i : Int)
  | float (f : Rat)
  deriving DecidableEq, Repr

/-- serde_json Number::as_u64: only a non-negative integer representation. -/
def JsonNum.as_u64 : JsonNum → Option Nat
  | .posInt n => some n
  | _ => none

/-- serde_json Number::as_i64: a non-negative integer if it fits in i64, or
a negative integer. -/
def JsonNum.as_i64 : JsonNum → Option Int
  | .posInt n => if n ≤ 9223372036854775807 then some n else none
  | .negInt i => some i
  | .float _ => none

/-- serde_json Number::as_f64: always representable (as an approximation in
the source; exact in this rational model). -/
def JsonNum.as_f64 : JsonNum → Option Rat
  | .posInt n => some n
  | .negInt i => some i
  | .float f => some f

/-- The decoded JSON values (serde_json::Value). Objects are embedded as
association lists keyed by strings; the theorems below only use objects
with distinct keys, where this agrees with the object map of the source. -/
inductive JValue where
  | null
  | bool (b : Bool)
  | number (n : JsonNum)
  | str (s : String)
  | array (items : List JValue)
  | object (entries : List (String × JValue))

/-- Key lookup in a JSON object. -/
def objGet (om : List (String × JValue)) (k : String) : Option JValue :=
  match om.find? (fun e => e.1 = k) with
  | some e => some e.2
  | none => none

mutual

/-- Modelled from the spec: Display rendering of a JSON value, used in
error messages. -/
def jValueToString : JValue → String
  | .null => "null"
  | .bool b => toString b
  | .number (.posInt n) => toString n
  | .number (.negInt i) => toString i
  | .number (.float f) => toString f
  | .str s => "\"" ++ s ++ "\""
  | .array items => "[" ++ jValueListToString items ++ "]"
  | .object entries => "\x7b" ++ jObjToString entries ++ "\x7d"

/-- Display rendering of a JSON array body. -/
def jValueListToString : List JValue → String
  | [] => ""
  | [v] => jValueToString v
  | v :: rest => jValueToString v ++ "," ++ jValueListToString rest

/-- Display rendering of a JSON object body. -/
def jObjToString : List (String × JValue) → String
  | [] => ""
  | [p] => "\"" ++ p.1 ++ "\":" ++ jValueToString p.2
  | p :: rest =>
      "\"" ++ p.1 ++ "\":" ++ jValueToString p.2 ++ "," ++ jObjToString rest

end

/-- Occurrence indicators of the older AST consumed by the JSON
validator. -/
inductive JOccur where
  | Optional
  | ZeroOrMore
  | OneOrMore
  | Exact (lower : Option Nat) (upper : Option Nat)
  deriving DecidableEq, Repr

mutual

/-- Type of the older AST: the non-empty list of type choices. -/
inductive JType where
  | mk (choices : List JType1)

/-- Type1 of the older AST. The JSON validator reads only the Type2
component (ranges and control operators are never consulted by
validator.rs), so only that component is carried. -/
inductive JType1 where
  | mk (type2 : JType2)

/-- Type2 of the older AST: the variants the JSON validator dispatches on;
every remaining variant (including Any) is handled by the catch-all arm
and is collapsed into Any and other. -/
inductive JType2 where
  | Value (v : Cbor.TokenValue)
  | Typename (ident : String)
  | ArrayT (group : JGroup)
  | MapT (group : JGroup)
  | Any
  | other (display : String)

/-- Group of the older AST. -/
inductive JGroup where
  | mk (choices : List JGroupChoice)

/-- GroupChoice of the older AST. -/
inductive JGroupChoice where
  | mk (entries : List JGroupEntry)

/-- GroupEntry of the older AST. -/
inductive JGroupEntry where
  | ValueMemberKey (occur : Option JOccur) (member_key : Option JMemberKey)
      (entry_type : JType)
  | TypeGroupname (occur : Option JOccur) (name : String)
  | InlineGroup (occur : Option JOccur) (group : JGroup)

/-- MemberKey of the older AST; the Type1 form carries the cut flag, which
the JSON validator never reads. The remaining source forms are rejected by
the validator and are collapsed into NonMember. -/
inductive JMemberKey where
  | Type1 (t1 : JType1) (cut : Bool)
  | Bareword (ident : String)
  | NonMember

end

/-- A type rule of the older AST. The generic parameters are carried but
never consulted by the JSON validator. -/
structure JTypeRule where
  name : String
  generic_params : Option (List String)
  value : JType

/-- A group rule of the older AST. -/
structure JGroupRule where
  name : String
  generic_params : Option (List String)
  entry : JGroupEntry

/-- A rule of the older AST. -/
inductive JRule where
  | TypeR (rule : JTypeRule)
  | GroupR (rule : JGroupRule)

/-- The CDDL program of the older AST. -/
structure JCDDL where
  rules : List JRule

mutual

/-- Modelled from the spec: the Display form of a Type of the older AST
(to_string of the source), consulted by is_type_json_prelude on entry
types. A single bare typename renders as its identifier; composite forms
render with their delimiters and so never collide with a prelude name. -/
def jTypeToString : JType → String
  | .mk cs => jTypeChoicesToString cs

/-- Display form of the type choices. -/
def jTypeChoicesToString : List JType1 → String
  | [] => ""
  | [t] => jType1ToString t
  | t :: rest => jType1ToString t ++ " / " ++ jTypeChoicesToString rest

/-- Display form of a Type1 of the older AST. -/
def jType1ToString : JType1 → String
  | .mk t2 => jType2ToString t2

/-- Display form of a Type2 of the older AST. -/
def jType2ToString : JType2 → String
  | .Value v => Cbor.tokenValueToString v
  | .Typename id => id
  | .ArrayT g => "[" ++ jGroupToString g ++ "]"
  | .MapT g => "\x7b" ++ jGroupToString g ++ "\x7d"
  | .Any => "any"
  | .other d => d

/-- Display form of a Group of the older AST. -/
def jGroupToString : JGroup → String
  | .mk gcs => jGroupChoicesToString gcs

/-- Display form of the group choices. -/
def jGroupChoicesToString : List JGroupChoice → String
  | [] => ""
  | [gc] => jGroupChoiceToString gc
  | gc :: rest => jGroupChoiceToString gc ++ " // " ++ jGroupChoicesToString rest

/-- Display form of a GroupChoice of the older AST. -/
def jGroupChoiceToString : JGroupChoice → String
  | .mk ges => jGroupEntriesToString ges

/-- Display form of the group entries. -/
def jGroupEntriesToString : List JGroupEntry → String
  | [] => ""
  | [ge] => jGroupEntryToString ge
  | ge :: rest => jGroupEntryToString ge ++ ", " ++ jGroupEntriesToString rest

/-- Display form of a GroupEntry of the older AST. -/
def jGroupEntryToString : JGroupEntry → String
  | .ValueMemberKey _ (some mk) t =>
      jMemberKeyToString mk ++ " " ++ jTypeToString t
  | .ValueMemberKey _ none t => jTypeToString t
  | .TypeGroupname _ name => name
  | .InlineGroup _ g => "(" ++ jGroupToString g ++ ")"

/-- Display form of a MemberKey of the older AST. -/
def jMemberKeyToString : JMemberKey → String
  | .Type1 t1 true => jType1ToString t1 ++ " ^ =>"
  | .Type1 t1 false => jType1ToString t1 ++ " =>"
  | .Bareword id => id ++ ":"
  | .NonMember => ""

end

/-- JSONError of validator.rs. -/
structure JSONError where
  expected_memberkey : Option String
  expected_value : String
  actual_memberkey : Option String
  actual_value : JValue

/-- ValidationError of validator.rs. The Compilation variant belongs to the
external parsers and is unreachable from the validation core, so it is not
carried. -/
inductive ValidationError where
  | CDDL (msg : String)
  | JSON (e : JSONError)
  | Occurrence (msg : String)
  | MultiError (errors : List ValidationError)

/-- Result alias of validator.rs for the pure leaf checks. -/
abbrev JResult := Except ValidationError Unit

/-- Halting outcome of the embedded recursive validators: a returned
validation error, the unimplemented panic of the keyless member entry, or
fuel exhaustion (the source recurses unboundedly on cyclic rule
references). -/
inductive JHalt where
  | err (e : ValidationError)
  | panicUnimplemented
  | noFuel

/-- Result type of the embedded recursive validators. -/
abbrev JOut := Except JHalt Unit

/-- Lifts a pure leaf check into the recursive result type. -/
def liftJ : JResult → JOut
  | .ok () => .ok ()
  | .error e => .error (.err e)

/-- is_type_json_prelude of validator.rs (the exact list of the source;
note that int and integer are absent from it). -/
def is_type_json_prelude (t : String) : Bool :=
  t = "any" || t = "uint" || t = "nint" || t = "tstr" || t = "text" ||
  t = "number" || t = "float16" || t = "float32" || t = "float64" ||
  t = "float16-32" || t = "float32-64" || t = "float" || t = "false" ||
  t = "true" || t = "bool" || t = "nil" || t = "null"

/-- Construction of a JSON mismatch error (the JSONError literal of the
source). -/
def mkJSONError (emk : Option String) (ev : String) (amk : Option String)
    (av : JValue) : ValidationError :=
  .JSON { expected_memberkey := emk
          expected_value := ev
          actual_memberkey := amk
          actual_value := av }

/-- expect_null of validator.rs. -/
def expect_null (ident : String) : JResult :=
  if ident = "null" ∨ ident = "nil" then .ok ()
  else
    .error (mkJSONError (none) (ident) (none) (.null))

/-- The bool FromStr of Rust: exactly true and false parse. -/
def parseBool : String → Option Bool
  | "true" => some true
  | "false" => some false
  | _ => none

/-- expect_bool of validator.rs. -/
def expect_bool (ident : String) (json : JValue) : JResult :=
  match json with
  | .bool b =>
      if ident = "bool" then .ok ()
      else
        match parseBool ident with
        | some bfs =>
            if bfs = b then .ok ()
            else
              .error (mkJSONError (none) (ident) (none) (json))
        | none =>
            .error (mkJSONError (none) (ident) (none) (json))
  | _ =>
      .error (mkJSONError (none) (ident) (none) (json))

/-- validate_numeric_value of validator.rs: literal comparison against a
JSON number; literals other than INT and FLOAT succeed vacuously in the
source. -/
def validate_numeric_value (v : Cbor.TokenValue) (json : JValue) : JResult :=
  match json with
  | .number n =>
      (match v with
       | .INT i =>
           (match n.as_i64 with
            | some n64 =>
                if n64 = i then .ok ()
                else
                  .error (mkJSONError (none) (Cbor.tokenValueToString v) (none) (json))
            | none =>
                .error (mkJSONError (none) (Cbor.tokenValueToString v) (none) (json)))
       | .FLOAT f =>
           (match n.as_f64 with
            | some n64 =>
                if |n64 - f| < Cbor.f64Epsilon then .ok ()
                else
                  .error (mkJSONError (none) (Cbor.tokenValueToString v) (none) (json))
            | none =>
                .error (mkJSONError (none) (Cbor.tokenValueToString v) (none) (json)))
       | _ => .ok ())
  | _ =>
      .error (mkJSONError (none) (Cbor.tokenValueToString v) (none) (json))

/-- validate_numeric_data_type of validator.rs: the prelude numeric
identifiers recognized for a JSON number (uint, nint, int, number, float16
and float32 only; every other identifier is rejected). -/
def validate_numeric_data_type (expected_memberkey actual_memberkey :
    Option String) (ident : String) (json : JValue) : JResult :=
  match json with
  | .number n =>
      let failure : JResult :=
        .error (mkJSONError (expected_memberkey) (ident) (actual_memberkey) (json))
      if ident = "uint" then
        match n.as_u64 with
        | some _ => .ok ()
        | none => failure
      else if ident = "nint" then
        match n.as_i64 with
        | some n64 => if n64 < 0 then .ok () else failure
        | none => failure
      else if ident = "int" then
        match n.as_i64 with
        | some _ => .ok ()
        | none => failure
      else if ident = "number" then .ok ()
      else if ident = "float16" then
        match n.as_f64 with
        | some _ => .ok ()
        | none => failure
      else if ident = "float32" then
        match n.as_f64 with
        | some _ => .ok ()
        | none => failure
      else failure
  | _ =>
      .error (mkJSONError (expected_memberkey) (ident) (actual_memberkey) (json))

/-- validate_string_value of validator.rs. -/
def validate_string_value (v : Cbor.TokenValue) (s : String) : JResult :=
  match v with
  | .TEXT t =>
      if t = s then .ok ()
      else
        .error (mkJSONError (none) (Cbor.tokenValueToString v) (none) (.str s))
  | _ =>
      .error (mkJSONError (none) (Cbor.tokenValueToString v) (none) (.str s))

/-- validate_array_occurrence of validator.rs (the JSON-side arbiter of
lines 577 to 637 of the source). -/
def validate_array_occurrence (occur : JOccur) (group : String)
    (values : List JValue) : JResult :=
  match occur with
  | .ZeroOrMore => .ok ()
  | .Optional => .ok ()
  | .OneOrMore =>
      if values.isEmpty then
        .error (.Occurrence
          ("Expecting one or more values of group " ++ group))
      else .ok ()
  | .Exact l u =>
      let len := values.length
      let step1 : Option ValidationError :=
        match l with
        | some li =>
            let first : Option ValidationError :=
              match u with
              | some ui =>
                  if len < li ∨ len > ui then
                    if li = ui then
                      some (.Occurrence ("Expecting exactly " ++ toString li ++
                        " values of group " ++ group ++ ". Got " ++
                        toString len ++ " values"))
                    else
                      some (.Occurrence ("Expecting between " ++ toString li ++
                        " and " ++ toString ui ++ " values of group " ++
                        group ++ ". Got " ++ toString len ++ " values"))
                  else none
              | none => none
            (match first with
             | some e => some e
             | none =>
                 if len < li then
                   some (.Occurrence ("Expecting at least " ++ toString li ++
                     " values of group " ++ group ++ ". Got " ++
                     toString len ++ " values"))
                 else none)
        | none => none
      match step1 with
      | some e => .error e
      | none =>
          match u with
          | some ui =>
              if len > ui then
                .error (.Occurrence ("Expecting no more than " ++
                  toString ui ++ " values of group " ++ group ++ ". Got " ++
                  toString len ++ " values"))
              else .ok ()
          | none => .ok ()

/-- Whether some type rule of the program carries the given name (the rules
scan guarding the all-elements branch of validate_group_choice). -/
def hasTypeRuleNamed (cddl : JCDDL) (name : String) : Bool :=
  cddl.rules.any (fun r =>
    match r with
    | .TypeR tr => tr.name = name
    | _ => false)

/-- The quoted-string member-key case of validate_group_entry, abstracted
over the recursive call to validate_type (vt): the key is looked up in an
object; with a non-prelude entry type a missing key falls back to
validating the whole object, with a prelude entry type it is a missing-key
error; against a non-object the entry type is checked against the value
directly (member keys are annotation only in arrays). -/
def validate_text_member
    (vt : JType → Option String → Option String → Option JOccur → JValue →
      JOut)
    (mkStr geStr t : String) (entry_type : JType) (occur : Option JOccur)
    (json : JValue) : JOut :=
  match json with
  | .object om =>
      if !is_type_json_prelude (jTypeToString entry_type) then
        match objGet om t with
        | some v => vt entry_type (some mkStr) (some t) occur v
        | none => vt entry_type (some mkStr) none occur json
      else
        match objGet om t with
        | some v => vt entry_type (some mkStr) (some t) occur v
        | none => .error (.err (mkJSONError (some mkStr) geStr none json))
  | _ => vt entry_type (some mkStr) none occur json

/-- The missing-key outcome of the bareword member-key case: the occurrence
passed down from the caller decides it (Optional and OneOrMore pass, every
other indicator or its absence is an error). -/
def bareword_missing_outcome (occur : Option JOccur) (mkStr : String)
    (entry_type : JType) (json : JValue) : JOut :=
  match occur with
  | some .Optional => .ok ()
  | some .OneOrMore => .ok ()
  | _ =>
      .error (.err (mkJSONError (some mkStr)
        (mkStr ++ " " ++ jTypeToString entry_type) none json))

/-- The bareword member-key case of validate_group_entry, abstracted over
the recursive call to validate_type (vt): like the quoted form, except that
a present key checks the member value under the entry occurrence, while the
missing-key outcome consults the occurrence passed down from the caller. -/
def validate_bareword_member
    (vt : JType → Option String → Option String → Option JOccur → JValue →
      JOut)
    (mkStr ident : String) (entry_type : JType)
    (vOccur occur : Option JOccur) (json : JValue) : JOut :=
  match json with
  | .object om =>
      if !is_type_json_prelude (jTypeToString entry_type) then
        match objGet om ident with
        | some v => vt entry_type (some mkStr) (some ident) vOccur v
        | none => vt entry_type (some mkStr) none vOccur json
      else
        match objGet om ident with
        | some v => vt entry_type (some mkStr) (some ident) vOccur v
        | none => bareword_missing_outcome occur mkStr entry_type json
  | _ => vt entry_type (some mkStr) none vOccur json

mutual

/-- validate_rule_for_ident: prelude identifiers reaching this path are
mismatches; otherwise the first rule with the name is validated, and an
unknown identifier is a CDDL error. -/
def validate_rule_for_ident (cddl : JCDDL) :
    Nat → String → Option String → Option String → Option JOccur → JValue →
      JOut
  | 0, _, _, _, _, _ => .error .noFuel
  | fuel + 1, ident, emk, amk, occur, json =>
      if is_type_json_prelude ident then
        .error (.err (mkJSONError emk ident amk json))
      else
        jRuleLookupLoop cddl fuel cddl.rules ident emk amk occur json
termination_by structural fuel _ _ _ _ _ => fuel

/-- The rule scan of validate_rule_for_ident. -/
def jRuleLookupLoop (cddl : JCDDL) :
    Nat → List JRule → String → Option String → Option String →
      Option JOccur → JValue → JOut
  | 0, _, _, _, _, _, _ => .error .noFuel
  | _ + 1, [], ident, _, _, _, _ =>
      .error (.err (.CDDL ("No rule with name " ++ ident ++ " defined\n")))
  | fuel + 1, .TypeR tr :: rest, ident, emk, amk, occur, json =>
      if tr.name = ident then validate_type_rule cddl fuel tr emk amk occur json
      else jRuleLookupLoop cddl fuel rest ident emk amk occur json
  | fuel + 1, .GroupR gr :: rest, ident, emk, amk, occur, json =>
      if gr.name = ident then validate_group_rule cddl fuel gr occur json
      else jRuleLookupLoop cddl fuel rest ident emk amk occur json
termination_by structural fuel _ _ _ _ _ _ => fuel

/-- validate_type_rule: checks the value of the rule (generic parameters
and type-choice alternates are not consulted by the JSON validator). -/
def validate_type_rule (cddl : JCDDL) :
    Nat → JTypeRule → Option String → Option String → Option JOccur →
      JValue → JOut
  | 0, _, _, _, _, _ => .error .noFuel
  | fuel + 1, tr, emk, amk, occur, json =>
      validate_type cddl fuel tr.value emk amk occur json
termination_by structural fuel _ _ _ _ _ => fuel

/-- validate_group_rule: checks the entry of the rule. -/
def validate_group_rule (cddl : JCDDL) :
    Nat → JGroupRule → Option JOccur → JValue → JOut
  | 0, _, _, _ => .error .noFuel
  | fuel + 1, gr, occur, json =>
      validate_group_entry cddl fuel gr.entry occur json
termination_by structural fuel _ _ _ => fuel

/-- validate_type: the first type choice that validates wins; otherwise a
MultiError with every per-choice error. -/
def validate_type (cddl : JCDDL) :
    Nat → JType → Option String → Option String → Option JOccur → JValue →
      JOut
  | 0, _, _, _, _, _ => .error .noFuel
  | fuel + 1, .mk choices, emk, amk, occur, json =>
      jTypeChoicesLoop cddl fuel choices emk amk occur json []
termination_by structural fuel _ _ _ _ _ => fuel

/-- The choice loop of validate_type. -/
def jTypeChoicesLoop (cddl : JCDDL) :
    Nat → List JType1 → Option String → Option String → Option JOccur →
      JValue → List ValidationError → JOut
  | 0, _, _, _, _, _, _ => .error .noFuel
  | _ + 1, [], _, _, _, _, errs => .error (.err (.MultiError errs))
  | fuel + 1, t1 :: rest, emk, amk, occur, json, errs =>
      match validate_type1 cddl fuel t1 emk amk occur json with
      | .ok () => .ok ()
      | .error (.err e) =>
          jTypeChoicesLoop cddl fuel rest emk amk occur json (errs ++ [e])
      | .error h => .error h
termination_by structural fuel _ _ _ _ _ _ => fuel

/-- validate_type1: only the Type2 component is consulted. -/
def validate_type1 (cddl : JCDDL) :
    Nat → JType1 → Option String → Option String → Option JOccur → JValue →
      JOut
  | 0, _, _, _, _, _ => .error .noFuel
  | fuel + 1, .mk t2, emk, amk, occur, json =>
      validate_type2 cddl fuel t2 emk amk occur json
termination_by structural fuel _ _ _ _ _ => fuel

/-- validate_type2: the Type2 dispatch of the JSON validator; every variant
outside literal values, typenames, arrays and maps falls to the CDDL
catch-all error. -/
def validate_type2 (cddl : JCDDL) :
    Nat → JType2 → Option String → Option String → Option JOccur → JValue →
      JOut
  | 0, _, _, _, _, _ => .error .noFuel
  | fuel + 1, t2, emk, amk, occur, json =>
      match t2 with
      | .Value v =>
          (match json with
           | .number _ => liftJ (validate_numeric_value v json)
           | .str s => liftJ (validate_string_value v s)
           | _ =>
               .error (.err (mkJSONError emk (jType2ToString t2) amk json)))
      | .Typename tn =>
          (match json with
           | .null => liftJ (expect_null tn)
           | .bool _ => liftJ (expect_bool tn json)
           | .str _ =>
               if tn = "tstr" ∨ tn = "text" then .ok ()
               else validate_rule_for_ident cddl fuel tn emk amk occur json
           | .number _ =>
               liftJ (validate_numeric_data_type emk amk tn json)
           | .object _ =>
               validate_rule_for_ident cddl fuel tn emk amk occur json
           | .array _ =>
               validate_rule_for_ident cddl fuel tn emk amk occur json)
      | .ArrayT g =>
          (match json with
           | .array _ => validate_group cddl fuel g occur json
           | _ =>
               .error (.err (mkJSONError emk (jType2ToString t2) amk json)))
      | .MapT g =>
          (match json with
           | .object _ => validate_group cddl fuel g occur json
           | _ =>
               .error (.err (mkJSONError emk (jType2ToString t2) amk json)))
      | _ =>
          .error (.err (.CDDL ("CDDL type " ++ jType2ToString t2 ++
            " cant be used to validate JSON " ++ jValueToString json)))
termination_by structural fuel _ _ _ _ _ => fuel

/-- validate_group: the first group choice that validates wins; otherwise a
MultiError with every per-choice error. -/
def validate_group (cddl : JCDDL) :
    Nat → JGroup → Option JOccur → JValue → JOut
  | 0, _, _, _ => .error .noFuel
  | fuel + 1, .mk gcs, occur, json =>
      jGroupChoicesLoop cddl fuel gcs occur json []
termination_by structural fuel _ _ _ => fuel

/-- The choice loop of validate_group. -/
def jGroupChoicesLoop (cddl : JCDDL) :
    Nat → List JGroupChoice → Option JOccur → JValue →
      List ValidationError → JOut
  | 0, _, _, _, _ => .error .noFuel
  | _ + 1, [], _, _, errs => .error (.err (.MultiError errs))
  | fuel + 1, gc :: rest, occur, json, errs =>
      match validate_group_choice cddl fuel gc occur json with
      | .ok () => .ok ()
      | .error (.err e) =>
          jGroupChoicesLoop cddl fuel rest occur json (errs ++ [e])
      | .error h => .error h
termination_by structural fuel _ _ _ _ => fuel

/-- validate_group_choice: walks the entries in order. -/
def validate_group_choice (cddl : JCDDL) :
    Nat → JGroupChoice → Option JOccur → JValue → JOut
  | 0, _, _, _ => .error .noFuel
  | fuel + 1, gc, occur, json =>
      match gc with
      | .mk ges =>
          jGroupChoiceEntriesLoop cddl fuel ges occur json
            (jGroupChoiceToString gc)
termination_by structural fuel _ _ _ => fuel

/-- The entry loop of validate_group_choice: arrays are matched through the
all-elements branch (for a type-rule group name) or the any-element branch;
objects check each entry against the whole object; every other value is a
mismatch against the group choice. -/
def jGroupChoiceEntriesLoop (cddl : JCDDL) :
    Nat → List JGroupEntry → Option JOccur → JValue → String → JOut
  | 0, _, _, _, _ => .error .noFuel
  | _ + 1, [], _, _, _ => .ok ()
  | fuel + 1, ge :: rest, occur, json, gcStr =>
      match json with
      | .array values =>
          let step1 : JOut :=
            match ge with
            | .TypeGroupname (some o) name =>
                liftJ (validate_array_occurrence o name values)
            | _ => .ok ()
          (match step1 with
           | .error h => .error h
           | .ok () =>
               let step2 : JOut :=
                 match ge with
                 | .InlineGroup (some o) g =>
                     liftJ (validate_array_occurrence o (jGroupToString g) values)
                 | _ => .ok ()
               match step2 with
               | .error h => .error h
               | .ok () =>
                   match ge with
                   | .TypeGroupname _ name =>
                       if hasTypeRuleNamed cddl name then
                         match jAllLoop cddl fuel ge occur values [] with
                         | .error h => .error h
                         | .ok (true, _) => .ok ()
                         | .ok (false, errors) =>
                             if !errors.isEmpty then
                               .error (.err (.MultiError errors))
                             else
                               jArrayAnyPhase cddl fuel rest ge occur values
                                 gcStr errors
                       else jArrayAnyPhase cddl fuel rest ge occur values gcStr []
                   | _ => jArrayAnyPhase cddl fuel rest ge occur values gcStr [])
      | .object _ =>
          (match validate_group_entry cddl fuel ge occur json with
           | .ok () => jGroupChoiceEntriesLoop cddl fuel rest occur json gcStr
           | .error h => .error h)
      | _ => .error (.err (mkJSONError none gcStr none json))
termination_by structural fuel _ _ _ _ => fuel

/-- The any-element phase of the array case: some element matching the
entry advances to the next entry; no match with recorded errors is a
MultiError; no match over an empty error list (an empty array) also
advances. -/
def jArrayAnyPhase (cddl : JCDDL) :
    Nat → List JGroupEntry → JGroupEntry → Option JOccur →
      List JValue → String → List ValidationError → JOut
  | 0, _, _, _, _, _, _ => .error .noFuel
  | fuel + 1, rest, ge, occur, values, gcStr, errs =>
      match jAnyLoop cddl fuel ge occur values errs with
      | .error h => .error h
      | .ok (true, _) =>
          jGroupChoiceEntriesLoop cddl fuel rest occur (.array values) gcStr
      | .ok (false, errors) =>
          if !errors.isEmpty then .error (.err (.MultiError errors))
          else
            jGroupChoiceEntriesLoop cddl fuel rest occur (.array values) gcStr
termination_by structural fuel _ _ _ _ _ _ => fuel

/-- The all-elements loop of the array case: short-circuits at the first
failing element, recording its error. -/
def jAllLoop (cddl : JCDDL) :
    Nat → JGroupEntry → Option JOccur → List JValue →
      List ValidationError → Except JHalt (Bool × List ValidationError)
  | 0, _, _, _, _ => .error .noFuel
  | _ + 1, _, _, [], errs => .ok (true, errs)
  | fuel + 1, ge, occur, v :: rest, errs =>
      match validate_group_entry cddl fuel ge occur v with
      | .ok () => jAllLoop cddl fuel ge occur rest errs
      | .error (.err e) => .ok (false, errs ++ [e])
      | .error h => .error h
termination_by structural fuel _ _ _ _ => fuel

/-- The any-element loop of the array case: short-circuits at the first
matching element, recording the errors of the elements before it. -/
def jAnyLoop (cddl : JCDDL) :
    Nat → JGroupEntry → Option JOccur → List JValue →
      List ValidationError → Except JHalt (Bool × List ValidationError)
  | 0, _, _, _, _ => .error .noFuel
  | _ + 1, _, _, [], errs => .ok (false, errs)
  | fuel + 1, ge, occur, v :: rest, errs =>
      match validate_group_entry cddl fuel ge occur v with
      | .ok () => .ok (true, errs)
      | .error (.err e) => jAnyLoop cddl fuel ge occur rest (errs ++ [e])
      | .error h => .error h
termination_by structural fuel _ _ _ _ => fuel

/-- validate_group_entry: member-key entries are dispatched to the
quoted-string or bareword handlers; a member key that is a string prelude
typename is the pattern form and passes; other member-key forms are CDDL
errors; the keyless form hits the unimplemented panic of the source; group
name entries resolve their rule; inline groups pass their occurrence
through. -/
def validate_group_entry (cddl : JCDDL) :
    Nat → JGroupEntry → Option JOccur → JValue → JOut
  | 0, _, _, _ => .error .noFuel
  | fuel + 1, ge, occur, json =>
      match ge with
      | .ValueMemberKey vOccur mkOpt entry_type =>
          (match mkOpt with
           | some mk =>
               (match mk with
                | .Type1 (.mk t2) _ =>
                    (match t2 with
                     | .Value (.TEXT t) =>
                         validate_text_member
                           (fun et emk amk o j =>
                             validate_type cddl fuel et emk amk o j)
                           (jMemberKeyToString mk)
                           (jGroupEntryToString ge) t entry_type occur json
                     | .Typename ident =>
                         if ident = "tstr" ∨ ident = "text" then .ok ()
                         else
                           .error (.err (.CDDL
                             "CDDL member key must be quoted string or bareword for validating JSON objects"))
                     | _ =>
                         .error (.err (.CDDL
                           "CDDL member key must be quoted string or bareword for validating JSON objects")))
                | .Bareword ident =>
                    validate_bareword_member
                      (fun et emk amk o j =>
                        validate_type cddl fuel et emk amk o j)
                      (jMemberKeyToString mk)
                      ident entry_type vOccur occur json
                | .NonMember =>
                    .error (.err (.CDDL
                      "CDDL member key must be quoted string or bareword for validating JSON objects")))
           | none => .error .panicUnimplemented)
      | .TypeGroupname tgOccur name =>
          validate_rule_for_ident cddl fuel name none none tgOccur json
      | .InlineGroup igo g =>
          if igo.isSome then validate_group cddl fuel g igo json
          else validate_group cddl fuel g occur json
termination_by structural fuel _ _ _ => fuel

end

/-- The root loop of validate_json: the first type rule is the root,
regardless of generic parameters; group rules are skipped. -/
def jRootLoop (cddl : JCDDL) (fuel : Nat) : List JRule → JValue → JOut
  | [], _ => .ok ()
  | .TypeR tr :: _, json =>
      validate_type_rule cddl fuel tr none none none json
  | .GroupR _ :: rest, json => jRootLoop cddl fuel rest json

/-- validate_json of validator.rs. -/
def validate_json (fuel : Nat) (cddl : JCDDL) (json : JValue) : JOut :=
  jRootLoop cddl fuel cddl.rules json

/-- Whether a JSON validation outcome is a success. -/
def jOutIsOk : JOut → Bool
  | .ok () => true
  | .error _ => false

/-- The first type rule in declaration order, regardless of generic
parameters: the root the JSON validator actually selects. -/
def jFirstTypeRule : List JRule → Option JTypeRule
  | [] => none
  | .TypeR tr :: _ => some tr
  | .GroupR _ :: rest => jFirstTypeRule rest

/-- Modelled from the spec: root selection for the older AST — the first
type rule in declaration order that has no generic parameters (section 8,
law 3 of the spec). -/
def jFirstNonGenericTypeRule : List JRule → Option JTypeRule
  | [] => none
  | .TypeR tr :: rest =>
      if tr.generic_params.isNone then some tr
      else jFirstNonGenericTypeRule rest
  | .GroupR _ :: rest => jFirstNonGenericTypeRule rest

end Json

namespace Cbor

/-- Whether a CBOR validation outcome is a success. -/
def vResultIsOk : VResult → Bool
  | .ok => true
  | _ => false

/-- Whether a visit returned normally with an empty error list. -/
def visitOkNoErrors : VisitM → Bool
  | .ok st => st.errors.isEmpty
  | .error _ => false

/-- Modelled from the spec: root selection — the first type rule in
declaration order that has no generic parameters (section 8, law 3). -/
def firstNonGenericTypeRule : List Rule → Option TypeRule
  | [] => none
  | .TypeR tr :: rest =>
      if tr.generic_params.isNone then some tr
      else firstNonGenericTypeRule rest
  | .GroupR _ :: rest => firstNonGenericTypeRule rest

/-- Classification of a root visit outcome, as done at the end of
CBORValidator::validate. -/
def classifyRoot : VisitM → VResult
  | .error (.abort e) => .validationErr [e]
  | .error .noFuel => .noFuel
  | .ok st => if st.errors.isEmpty then .ok else .validationErr st.errors

/-- The choice-walk skeleton of visit_type (cbor.rs lines 296 to 320),
with the visit of a single type choice abstracted as the list of errors it
appends (the validator only appends to the error list and reads only its
length, so the errors a choice appends do not depend on the errors already
recorded). The loop saves the length before each choice, and on a choice
that appended nothing truncates the list back to the initial watermark. -/
def typeChoiceWalkLoop (f : Type1 → List ValidationError) :
    List Type1 → Nat → List ValidationError → List ValidationError
  | [], _, acc => acc
  | tc :: rest, initial, acc =>
      let acc2 := acc ++ f tc
      if acc2.length = acc.length then acc2.take initial
      else typeChoiceWalkLoop f rest initial acc2

/-- The choice walk of visit_type over the error list, starting from the
entry watermark. -/
def typeChoiceWalk (f : Type1 → List ValidationError) (choices : List Type1)
    (errors : List ValidationError) : List ValidationError :=
  typeChoiceWalkLoop f choices errors.length errors

/-- The within-control skeleton of visit_control_operator (cbor.rs lines
824 to 844), with the visits of target and controller abstracted as the
error lists they append: both are always visited; when the target appended
nothing and the controller appended something, the error list is truncated
back to the entry watermark and the single within mismatch is recorded. -/
def withinControlWalk (targetErrs controllerErrs : List ValidationError)
    (errors : List ValidationError) (withinErr : ValidationError) :
    List ValidationError :=
  let afterTarget := errors ++ targetErrs
  let no_errors := afterTarget.length = errors.length
  let afterController := afterTarget ++ controllerErrs
  if no_errors ∧ afterController.length > errors.length then
    afterController.take errors.length ++ [withinErr]
  else afterController

/-- The empty program, used to isolate prelude-identifier behavior. -/
def emptyCddl : CDDL := ⟨[]⟩

/-- A single-rule program with the given root type. -/
def singleTypeRule (name : String) (t : TypeAst) : CDDL :=
  ⟨[.TypeR { name := name, generic_params := none, value := t }]⟩

/-- The program r = nint. -/
def nintProg : CDDL := singleTypeRule "r" (.mk [.mk (.Typename "nint" none) none])

/-- The program r = uint .size 2. -/
def sizeProg : CDDL :=
  singleTypeRule "r"
    (.mk [.mk (.Typename "uint" none) (some (.ctlOp ".size" (.UintValue 2)))])

/-- The program r = any. -/
def anyCborProg : CDDL := singleTypeRule "r" (.mk [.mk .Any none])

/-- The schema of the cut scenario with entry type T:
root = (map of) k cut-arrow T, zero-or-more tstr arrow any. -/
def c6Schema (T : TypeAst) : CDDL :=
  singleTypeRule "root"
    (.mk [.mk (.MapT (.mk [.mk [
      .ValueMemberKey none
        (some (.Type1M (.mk (.TextValue "k") none) true)) T,
      .ValueMemberKey (some .ZeroOrMore)
        (some (.Type1M (.mk (.Typename "tstr" none) none) false))
        (.mk [.mk .Any none])]])) none])

/-- The type uint. -/
def uintType : TypeAst := .mk [.mk (.Typename "uint" none) none]

/-- The subvalidator state in which the cut scenario checks the member
value: a fresh validator on the value whose value path is the matched key
segment. -/
def c6SubState (v : CborValue) : St :=
  { newValidator v with cbor_location := "/\"k\"" }

/-- The CBOR program root = (map of) optional bareword k with type tstr,
the CBOR analog of the JSON failing input of the occurrence claim. -/
def c3CborProg : CDDL :=
  singleTypeRule "root"
    (.mk [.mk (.MapT (.mk [.mk [
      .ValueMemberKey (some .Optional) (some (.Bareword "k"))
        (.mk [.mk (.Typename "tstr" none) none])]])) none])

end Cbor

namespace Json

/-- The JSON program root = (map of) optional bareword k with type tstr,
the failing input of the occurrence claim. -/
def c3Prog : JCDDL :=
  ⟨[.TypeR (JTypeRule.mk "root" none
     (.mk [.mk (.MapT (.mk [.mk [
       .ValueMemberKey (some .Optional) (some (.Bareword "k"))
         (.mk [.mk (.Typename "tstr")])]]))]))]⟩

/-- The rule root = null of the root-selection counterexample. -/
def c2RootRule : JTypeRule :=
  { name := "root", generic_params := none,
    value := .mk [.mk (.Typename "null")] }

/-- The JSON program whose first type rule is generic:
msg with generic parameter T = undefinedrule, then root = null. -/
def c2Prog : JCDDL :=
  ⟨[.TypeR (JTypeRule.mk "msg" (some ["T"])
      (.mk [.mk (.Typename "undefinedrule")])),
    .TypeR c2RootRule]⟩

/-- The JSON program r = any (the Any form of the older AST). -/
def anyJsonProg : JCDDL :=
  ⟨[.TypeR { name := "r", generic_params := none, value := .mk [.mk .Any] }]⟩

/-- The JSON program r = any with any parsed as a plain typename. -/
def anyTypenameJsonProg : JCDDL :=
  ⟨[.TypeR (JTypeRule.mk "r" none (.mk [.mk (.Typename "any")]))]⟩

end Json


namespace Cbor

/-- Extraction of the final error list from a normal visit. -/
def errorsOfVisit : VisitM → Option (List ValidationError)
  | .ok st => some st.errors
  | .error _ => none

/-- The state the literal-key lookup of the .ne scenario starts from: a
fresh validator on an empty map with the .ne control active. -/
def c10St : St := { newValidator (.map []) with ctrl := some .NE }

/-- The sub-visit outcome of the cut scenario at entry type uint and member
value true: a single mismatch error at the key location. -/
def c6St2 : St :=
  addError (c6SubState (.bool true)) "expected type uint, got Bool(true)"

end Cbor

namespace Json

/-- A sample non-prelude entry type for exercising the member-key fallback. -/
def c9T : JType := .mk [.mk (.Typename "myrule")]

/-- A sample continuation standing for the recursive validate_type call. -/
def c9vt : JType → Option String → Option String → Option JOccur → JValue →
    JOut :=
  fun _ _ _ _ _ => .ok ()

end Json

namespace Cbor

theorem typeChoiceWalkLoop_all_fail (f : Type1 → List ValidationError)
    (choices : List Type1) (h : ∀ tc ∈ choices, f tc ≠ []) (n : Nat)
    (acc : List ValidationError) :
    typeChoiceWalkLoop f choices n acc = acc ++ (choices.map f).flatten := by
  induction choices generalizing acc with
  | nil => simp [typeChoiceWalkLoop]
  | cons tc rest ih =>
      have hf : f tc ≠ [] := h tc (by simp)
      have hlen : (acc ++ f tc).length ≠ acc.length := by
        simp [List.length_append]
        intro hc
        exact hf hc
      simp only [typeChoiceWalkLoop]
      rw [if_neg hlen]
      rw [ih (fun x hx => h x (by simp [hx]))]
      simp

theorem typeChoiceWalkLoop_success (f : Type1 → List ValidationError)
    (choices : List Type1) (errors junk : List ValidationError)
    (h : ∃ tc ∈ choices, f tc = []) :
    typeChoiceWalkLoop f choices errors.length (errors ++ junk) = errors := by
  induction choices generalizing junk with
  | nil => simp at h
  | cons tc rest ih =>
      by_cases hf : f tc = []
      · simp only [typeChoiceWalkLoop, hf, List.append_nil, if_pos rfl]
        exact List.take_left errors junk
      · have hlen : ((errors ++ junk) ++ f tc).length ≠ (errors ++ junk).length := by
          simp [List.length_append]
          intro hc
          exact hf hc
        simp only [typeChoiceWalkLoop]
        rw [if_neg hlen, List.append_assoc]
        apply ih
        rcases h with ⟨x, hx, hfx⟩
        rcases List.mem_cons.mp hx with h1 | h2
        · exact absurd (h1 ▸ hfx) hf
        · exact ⟨x, h2, hfx⟩

/-- Claim C1: over the error-list skeleton of the type-choice walk of
visit_type, with nonempty choices: the walk leaves the error list unchanged
iff some choice appends no error (the success truncates back to the entry
watermark), and when every choice fails all per-choice errors remain
appended. -/
theorem claim_C1 (f : Type1 → List ValidationError)
    (choices : List Type1) (errors : List ValidationError)
    (hne : choices ≠ []) :
    (typeChoiceWalk f choices errors = errors ↔ ∃ tc ∈ choices, f tc = [])
    ∧ ((∀ tc ∈ choices, f tc ≠ []) →
        typeChoiceWalk f choices errors = errors ++ (choices.map f).flatten) := by
  constructor
  · constructor
    · intro h
      by_contra hno
      push_neg at hno
      rw [typeChoiceWalk, typeChoiceWalkLoop_all_fail f choices hno] at h
      have hj : (choices.map f).flatten = [] := by
        have h2 : errors ++ (choices.map f).flatten = errors ++ [] := by
          simpa using h
        exact List.append_cancel_left h2
      rcases choices with _ | ⟨tc, rest⟩
      · exact hne rfl
      · have hmem : f tc ∈ (List.map f (tc :: rest)) := by simp
        have : f tc = [] := List.flatten_eq_nil_iff.mp hj (f tc) hmem
        exact hno tc (by simp) this
    · intro h
      have := typeChoiceWalkLoop_success f choices errors [] h
      simpa [typeChoiceWalk] using this
  · intro hall
    exact typeChoiceWalkLoop_all_fail f choices hall errors.length errors

/-- Witness for claim C1: a single always-succeeding choice leaves an empty
error list unchanged. -/
theorem claim_C1_witness :
    typeChoiceWalk (fun _ => []) [Type1.mk .Any none] [] = [] :=
  (claim_C1 (fun _ => []) [Type1.mk .Any none] [] (by simp)).1.mpr
    ⟨Type1.mk .Any none, by simp, rfl⟩

/-- Claim C7: over the error-list skeleton of the .within arm of
visit_control_operator: the walk leaves the error list unchanged iff both
target and controller append nothing, and when the target appends nothing
but the controller appends something, the controller errors are truncated
away and exactly the single within mismatch remains. -/
theorem within_walk_eq (targetErrs controllerErrs errors :
    List ValidationError) (w : ValidationError) :
    withinControlWalk targetErrs controllerErrs errors w =
      if targetErrs.isEmpty && !controllerErrs.isEmpty then errors ++ [w]
      else errors ++ targetErrs ++ controllerErrs := by
  unfold withinControlWalk
  by_cases ht : targetErrs = []
  · subst ht
    by_cases hc : controllerErrs = []
    · subst hc
      simp
    · rw [if_pos ⟨by simp, by simp [List.length_append, List.length_pos.mpr hc]⟩]
      rw [if_pos (by simp [List.isEmpty_eq_true, hc])]
      rw [List.append_nil, List.take_left]
  · have hlen : ¬((errors ++ targetErrs).length = errors.length) := by
      simp [List.length_append]
      intro h
      exact ht h
    rw [if_neg (fun hcon => hlen hcon.1)]
    rw [if_neg (by simp [List.isEmpty_eq_true, ht])]

/-- Claim C7: over the error-list skeleton of the .within arm of
visit_control_operator: the walk leaves the error list unchanged iff both
target and controller append nothing, and when the target appends nothing
but the controller appends something, the controller errors are truncated
away and exactly the single within mismatch remains. -/
theorem claim_C7 (targetErrs controllerErrs errors : List ValidationError)
    (w : ValidationError) :
    (withinControlWalk targetErrs controllerErrs errors w = errors ↔
      (targetErrs = [] ∧ controllerErrs = []))
    ∧ (targetErrs = [] → controllerErrs ≠ [] →
        withinControlWalk targetErrs controllerErrs errors w = errors ++ [w]) := by
  rw [within_walk_eq]
  by_cases ht : targetErrs = [] <;> by_cases hc : controllerErrs = [] <;>
    simp [ht, hc, List.isEmpty_eq_true]

/-- Witness for claim C7: empty target errors and a one-error controller
leave exactly the within mismatch. -/
theorem claim_C7_witness :
    withinControlWalk []
        [⟨"c", "", "", false, false, false, none⟩] []
        ⟨"w", "", "", false, false, false, none⟩
      = [⟨"w", "", "", false, false, false, none⟩] :=
  (claim_C7 [] [⟨"c", "", "", false, false, false, none⟩] []
    ⟨"w", "", "", false, false, false, none⟩).2 rfl (by simp)

theorem cbor_root_eq (cddl : CDDL) (fuel : Nat) (rules : List Rule)
    (st : St) :
    validateRules cddl fuel rules st =
      (match firstNonGenericTypeRule rules with
       | some tr => visitTypeRule cddl fuel tr st
       | none => .ok st) := by
  induction rules with
  | nil => simp [validateRules, firstNonGenericTypeRule]
  | cons r rest ih =>
      cases r with
      | TypeR tr =>
          by_cases hg : tr.generic_params.isNone
          · simp [validateRules, firstNonGenericTypeRule, hg]
          · simp [validateRules, firstNonGenericTypeRule, hg, ih]
      | GroupR gr => simp [validateRules, firstNonGenericTypeRule, ih]

end Cbor

namespace Json

theorem json_root_eq (cddl : JCDDL) (fuel : Nat) (rules : List JRule)
    (v : JValue) :
    jRootLoop cddl fuel rules v =
      (match jFirstTypeRule rules with
       | some tr => validate_type_rule cddl fuel tr none none none v
       | none => .ok ()) := by
  induction rules with
  | nil => simp [jRootLoop, jFirstTypeRule]
  | cons r rest ih =>
      cases r with
      | TypeR tr => simp [jRootLoop, jFirstTypeRule]
      | GroupR gr => simp [jRootLoop, jFirstTypeRule, ih]

end Json

/-- Claim C2 (amended): the CBOR validator roots at the first type rule
without generic parameters and classifies the visit outcome, while the JSON
validator roots at the first type rule in declaration order regardless of
generic parameters; group rules are skipped by both. -/
theorem claim_C2 :
    (∀ (fuel : Nat) (cddl : Cbor.CDDL) (v : Cbor.CborValue),
      Cbor.validateCbor fuel cddl v =
        (match Cbor.firstNonGenericTypeRule cddl.rules with
         | some tr =>
             Cbor.classifyRoot
               (Cbor.visitTypeRule cddl fuel tr (Cbor.newValidator v))
         | none => .ok))
    ∧ (∀ (fuel : Nat) (cddl : Json.JCDDL) (json : Json.JValue),
      Json.validate_json fuel cddl json =
        (match Json.jFirstTypeRule cddl.rules with
         | some tr => Json.validate_type_rule cddl fuel tr none none none json
         | none => .ok ())) := by
  constructor
  · intro fuel cddl v
    rw [Cbor.validateCbor, Cbor.cbor_root_eq]
    cases h : Cbor.firstNonGenericTypeRule cddl.rules with
    | none => simp [Cbor.classifyRoot, Cbor.newValidator]
    | some tr =>
        simp only []
        cases Cbor.visitTypeRule cddl fuel tr (Cbor.newValidator v) with
        | error e => cases e <;> simp [Cbor.classifyRoot]
        | ok st => simp [Cbor.classifyRoot]
  · intro fuel cddl json
    rw [Json.validate_json, Json.json_root_eq]

/-- Counterexample for claim C2: a program whose first type rule is generic
fails on a value the first non-generic rule accepts, because the JSON
validator roots at the first type rule regardless of generic parameters. -/
theorem claim_C2_ce :
    Json.jOutIsOk (Json.validate_json 12 Json.c2Prog .null) = false
    ∧ Json.jFirstNonGenericTypeRule Json.c2Prog.rules = some Json.c2RootRule
    ∧ Json.jOutIsOk
        (Json.validate_type_rule Json.c2Prog 12 Json.c2RootRule none none none
          .null) = true := by
  refine ⟨by decide, rfl, by decide⟩

/-- Claim C3 evidence: on the schema root = map with one optional bareword
entry and the empty map, the JSON validator reports an error while the CBOR
validator accepts. -/
theorem claim_C3 :
    Json.jOutIsOk (Json.validate_json 12 Json.c3Prog (.object [])) = false
    ∧ (∀ fuel : Nat,
        Cbor.validateCbor (fuel+16) Cbor.c3CborProg (.map []) = .ok) := by
  constructor
  · decide
  · intro fuel
    simp [Cbor.validateCbor, Cbor.validateRules, Cbor.c3CborProg,
      Cbor.singleTypeRule]
    simp [Cbor.visitTypeRule, Cbor.type_choice_alternates_from_ident]
    simp [Cbor.visitTypeRuleLoop, Cbor.newValidator]
    simp [Cbor.visitType, Cbor.visitTypeChoicesLoop, Cbor.visitTypeChoice,
      Cbor.visitType1]
    simp [Cbor.visitType2, Cbor.visitGroup, Cbor.visitGroupChoicesLoop,
      Cbor.visitGroupChoice]
    simp [Cbor.visitGroupEntriesLoop, Cbor.visitGroupEntry,
      Cbor.visitValueMemberKeyEntry, Cbor.visitOccurrence, bind, Except.bind]
    simp [Cbor.visitMemberkey, Cbor.visitIdentifier, Cbor.rule_from_ident,
      Cbor.findGenericArg]
    simp [Cbor.visitValue, Cbor.mapGet, Cbor.occIsZeroOrOneOrMore,
      Cbor.is_ident_string_data_type, Cbor.is_ident_integer_data_type,
      Cbor.token_value_into_cbor_value]
    simp [Cbor.visitVmkeValueCheck, Cbor.truncErrors]

/-- Claim C4 (amended): a CBOR integer against a prelude identifier passes
exactly for int and integer, for uint exactly when nonnegative, and fails
for every other identifier, nint and the float family included; a JSON
number passes uint iff it is an unsigned 64-bit integer, nint iff it is a
negative signed 64-bit integer, int iff it is a signed 64-bit integer, and
number, float16 and float32 always — as_f64 of serde_json is total, so
float16 and float32 accept integers too. -/
theorem claim_C4 :
    (∀ (fuel : Nat) (i : Int) (ident : String),
      Cbor.visitOkNoErrors
          (Cbor.visitIdentifier Cbor.emptyCddl (fuel+1) ident
            (Cbor.newValidator (.integer i)))
        = (match Cbor.lookup_ident ident with
           | .INT => true
           | .INTEGER => true
           | .UINT => decide (0 ≤ i)
           | _ => false))
    ∧ (∀ (emk amk : Option String) (ident : String) (n : Json.JsonNum),
      Json.validate_numeric_data_type emk amk ident (.number n) = .ok () ↔
        ((ident = "uint" ∧ n.as_u64.isSome)
         ∨ (ident = "nint" ∧ ∃ x, n.as_i64 = some x ∧ x < 0)
         ∨ (ident = "int" ∧ n.as_i64.isSome)
         ∨ ident = "number"
         ∨ ident = "float16" ∨ ident = "float32")) := by
  constructor
  · intro fuel i ident
    simp only [Cbor.visitIdentifier, Cbor.newValidator, Cbor.rule_from_ident,
      Cbor.emptyCddl]
    cases h : Cbor.lookup_ident ident <;> by_cases hi : (0:Int) ≤ i <;>
      simp [h, hi, Cbor.visitOkNoErrors, Cbor.addError]
  · intro emk amk ident n
    cases n with
    | posInt m =>
        unfold Json.validate_numeric_data_type
        split_ifs <;>
          by_cases hm : m ≤ 9223372036854775807 <;>
          simp_all [Json.JsonNum.as_u64, Json.JsonNum.as_i64,
            Json.JsonNum.as_f64]
        all_goals rw [if_neg (by omega)]
        all_goals simp
        all_goals omega
    | negInt i =>
        unfold Json.validate_numeric_data_type
        split_ifs <;>
          simp_all [Json.JsonNum.as_u64, Json.JsonNum.as_i64,
            Json.JsonNum.as_f64]
    | float f =>
        unfold Json.validate_numeric_data_type
        split_ifs <;>
          simp_all [Json.JsonNum.as_u64, Json.JsonNum.as_i64,
            Json.JsonNum.as_f64]

/-- Counterexample for claim C4: the CBOR validator rejects -1 against
nint, though the claim says nint accepts every negative integer. -/
theorem claim_C4_ce :
    Cbor.vResultIsOk (Cbor.validateCbor 12 Cbor.nintProg (.integer (-1)))
      = false := by
  decide

namespace Cbor

theorem i128wrap_pow256 (e : Nat) :
    i128wrap ((256:Int) ^ e) = if e < 16 then (256:Int) ^ e else 0 := by
  unfold i128wrap
  by_cases h : e < 16
  · have hlt : (256:Int) ^ e < 2 ^ 127 := by
      rw [show (256:Int) = 2 ^ 8 by norm_num, ← pow_mul]
      have h2 : (2:Int) ^ (8 * e) ≤ 2 ^ 120 :=
        pow_le_pow_right₀ (by norm_num) (by omega)
      exact lt_of_le_of_lt h2 (by norm_num)
    have hnn : (0:Int) ≤ 256 ^ e := by positivity
    rw [Int.emod_eq_of_lt hnn (lt_trans hlt (by norm_num))]
    rw [if_pos hlt, if_pos h]
  · have hdvd : ((2:Int) ^ 128) ∣ (256:Int) ^ e := by
      rw [show (256:Int) = 2 ^ 8 by norm_num, ← pow_mul]
      exact pow_dvd_pow 2 (by omega)
    rw [Int.emod_eq_zero_of_dvd hdvd]
    rw [if_pos (by norm_num), if_neg h]

/-- Claim C5 (amended): under .size with a uint controller u, a text value
matches iff its UTF-8 byte length equals u; an integer i matches iff
i < i128wrap (256 ^ (u mod 2 ^ 32)), the release-mode wrapped power, which
equals 256 ^ u for u below 16 and 0 from 16 on (the i128 power overflows
and wraps to 0) — the lower bound 0 <= i of the claim is never checked, so
negative integers always match, and for wrapped exponents 16 and above no
nonnegative integer matches; a typename target that is neither a string
nor a uint data type, and any non-typename target, records the target-type
error. -/
theorem claim_C5 :
    (∀ (fuel : Nat) (s : String) (u : Nat),
      visitOkNoErrors
          (visitControlOperator emptyCddl (fuel+3) (.Typename "tstr" none)
            ".size" (.UintValue u) (newValidator (.text s)))
        = decide (s.utf8ByteSize = u))
    ∧ (∀ (fuel : Nat) (i : Int) (u : Nat),
      visitOkNoErrors
          (visitControlOperator emptyCddl (fuel+3) (.Typename "uint" none)
            ".size" (.UintValue u) (newValidator (.integer i)))
        = decide (i < i128wrap ((256:Int) ^ (u % 2^32))))
    ∧ (∀ e : Nat, i128wrap ((256:Int) ^ e) =
        if e < 16 then (256:Int) ^ e else 0)
    ∧ (∀ (fuel : Nat) (ident : String) (controller : Type2) (st : St),
        is_ident_string_data_type emptyCddl ident = false →
        is_ident_uint_data_type emptyCddl ident = false →
        visitControlOperator emptyCddl (fuel+1) (.Typename ident none) ".size"
            controller st
          = .ok (addError st
              ("target for .size must a string or uint data type, got " ++
                ident)))
    ∧ (∀ (fuel : Nat) (t2 : Type2) (controller : Type2) (st : St),
        (∀ id ga, t2 ≠ .Typename id ga) →
        visitControlOperator emptyCddl (fuel+1) t2 ".size" controller st
          = .ok (addError st
              ("target for .size must a string or uint data type, got " ++
                type2ToString t2))) := by
  refine ⟨?_, ?_, i128wrap_pow256, ?_, ?_⟩
  · intro fuel s u
    simp [visitControlOperator, lookup_control_from_str,
      is_ident_string_data_type, is_ident_uint_data_type, visitType2,
      visitValue, newValidator, bind, Except.bind]
    by_cases hl : s.utf8ByteSize = u <;>
      simp [hl, visitOkNoErrors, addError]
  · intro fuel i u
    simp [visitControlOperator, lookup_control_from_str,
      is_ident_string_data_type, is_ident_uint_data_type, visitType2,
      visitValue, newValidator, bind, Except.bind, integerValueError]
    by_cases hl : i < i128wrap ((256:Int) ^ (u % 4294967296)) <;>
      simp [hl, visitOkNoErrors, addError,
        show (2:Nat)^32 = 4294967296 by norm_num]
  · intro fuel ident controller st hs hu
    simp [visitControlOperator, lookup_control_from_str, hs, hu,
      type2ToString]
  · intro fuel t2 controller st hnt
    cases t2 <;>
      simp [visitControlOperator, lookup_control_from_str, type2ToString]
    exact absurd rfl (hnt _ _)

/-- Witness for claim C5: the typename int is neither a string nor a uint
data type for the empty program, and the target-type error is recorded. -/
theorem claim_C5_witness :
    is_ident_string_data_type emptyCddl "int" = false
    ∧ is_ident_uint_data_type emptyCddl "int" = false
    ∧ visitControlOperator emptyCddl 1 (.Typename "int" none) ".size"
        (.UintValue 2) (newValidator .null)
      = .ok (addError (newValidator .null)
          "target for .size must a string or uint data type, got int") :=
  ⟨by decide, by decide,
   claim_C5.2.2.2.1 0 "int" (.UintValue 2) (newValidator .null)
     (by decide) (by decide)⟩

set_option maxRecDepth 8192 in
/-- Counterexample for claim C5: the integer -1 is accepted against
uint .size 2, though the claim requires 0 <= i. -/
theorem claim_C5_ce :
    vResultIsOk (validateCbor 12 sizeProg (.integer (-1))) = true := by
  decide

theorem c6_cut_forces (fuel : Nat) (T : TypeAst) (v : CborValue) (st2 : St)
    (h : visitType (c6Schema T) (fuel+6) T (c6SubState v) = .ok st2)
    (h2 : st2.errors ≠ []) :
    validateCbor (fuel+20) (c6Schema T) (.map [(.text "k", v)]) =
      .validationErr st2.errors := by
  simp [c6Schema, singleTypeRule, c6SubState, newValidator] at h
  simp [validateCbor, validateRules, c6Schema, singleTypeRule]
  simp [visitTypeRule, type_choice_alternates_from_ident]
  simp [visitTypeRuleLoop, newValidator]
  simp [visitType, visitTypeChoicesLoop, visitTypeChoice, visitType1]
  simp [visitType2, visitGroup, visitGroupChoicesLoop, visitGroupChoice]
  simp [visitGroupEntriesLoop, visitGroupEntry, visitValueMemberKeyEntry,
    visitOccurrence, bind, Except.bind]
  simp [visitMemberkey, visitType1, visitType2, visitValue, mapGet, cborBeq,
    token_value_into_cbor_value, type1FromTokenValue, tokenValueToString]
  simp [visitVmkeValueCheck, truncErrors, newValidator]
  rw [h]
  simp [bind, Except.bind]
  simp [visitMemberkey, visitType1, visitType2, visitIdentifier,
    rule_from_ident, findGenericArg, occIsZeroOrOneOrMore, occIsOneOrMore,
    is_ident_string_data_type, cborIsText, visitVmkeValueCheck,
    visitTypeChoicesLoop, visitTypeChoice, truncErrors]
  simp [visitType, visitTypeChoicesLoop, visitTypeChoice, visitType1,
    visitType2, truncErrors]
  simp [bind, Except.bind, List.take_length]
  simp [List.length_eq_zero, h2, List.isEmpty_eq_true]

/-- Claim C6: in the cut scenario root = map of k cut T plus a pattern
entry, a failing sub-visit of T on the member value forces the whole
validation to fail with exactly those sub-visit errors, even though the
pattern entry would match; at entry type uint and member value true the
reported error names the key k in its cbor location. -/
theorem claim_C6 :
    (∀ (fuel : Nat) (T : TypeAst) (v : CborValue) (st2 : St),
      visitType (c6Schema T) (fuel+6) T (c6SubState v) = .ok st2 →
      st2.errors ≠ [] →
      validateCbor (fuel+20) (c6Schema T) (.map [(.text "k", v)]) =
        .validationErr st2.errors)
    ∧ validateCbor 20 (c6Schema uintType) (.map [(.text "k", .bool true)]) =
        .validationErr [⟨"expected type uint, got Bool(true)", "",
          "/\"k\"", false, false, false, none⟩] := by
  constructor
  · exact c6_cut_forces
  · have h := c6_cut_forces 0 uintType (.bool true) c6St2 (by rfl)
      (by simp [c6St2, addError, c6SubState, newValidator])
    simpa [c6St2, addError, c6SubState, newValidator] using h

/-- Witness for claim C6: the concrete sub-visit of uint on true returns
the one mismatch error at the key location, and the whole validation
reports exactly it. -/
theorem claim_C6_witness :
    visitType (c6Schema uintType) 6 uintType (c6SubState (.bool true)) =
        .ok c6St2
    ∧ c6St2.errors ≠ []
    ∧ validateCbor 20 (c6Schema uintType) (.map [(.text "k", .bool true)]) =
        .validationErr c6St2.errors :=
  ⟨by rfl, by simp [c6St2, addError, c6SubState, newValidator],
   claim_C6.1 0 uintType (.bool true) c6St2 (by rfl)
     (by simp [c6St2, addError, c6SubState, newValidator])⟩

end Cbor

/-- Claim C8 (amended): the CBOR validator accepts every value against the
prelude type any with the state unchanged, while the JSON validator never
accepts any: the Any form falls to the catch-all CDDL error and the
typename form fails on every JSON value. -/
theorem claim_C8 :
    (∀ (cddl : Cbor.CDDL) (fuel : Nat) (st : Cbor.St),
      Cbor.visitType2 cddl (fuel+1) .Any st = .ok st)
    ∧ (∀ (cddl : Json.JCDDL) (fuel : Nat) (emk amk : Option String)
        (occur : Option Json.JOccur) (json : Json.JValue),
      Json.validate_type2 cddl (fuel+1) .Any emk amk occur json =
        .error (.err (.CDDL ("CDDL type any cant be used to validate JSON "
          ++ Json.jValueToString json))))
    ∧ (∀ (cddl : Json.JCDDL) (fuel : Nat) (emk amk : Option String)
        (occur : Option Json.JOccur) (json : Json.JValue),
      Json.jOutIsOk
          (Json.validate_type2 cddl (fuel+2) (.Typename "any") emk amk occur
            json) = false) := by
  refine ⟨?_, ?_, ?_⟩
  · intro cddl fuel st
    simp [Cbor.visitType2]
  · intro cddl fuel emk amk occur json
    simp [Json.validate_type2, Json.jType2ToString]
  · intro cddl fuel emk amk occur json
    cases json <;>
      simp [Json.validate_type2, Json.expect_null, Json.expect_bool,
        Json.parseBool, Json.liftJ, Json.validate_numeric_data_type,
        Json.validate_rule_for_ident, Json.is_type_json_prelude,
        Json.jOutIsOk, Json.mkJSONError]

/-- Counterexample for claim C8: the JSON validator rejects null against
the schema r = any in both AST forms, while the CBOR validator accepts. -/
theorem claim_C8_ce :
    Json.jOutIsOk (Json.validate_json 10 Json.anyJsonProg .null) = false
    ∧ Json.jOutIsOk (Json.validate_json 10 Json.anyTypenameJsonProg .null)
        = false
    ∧ Cbor.vResultIsOk (Cbor.validateCbor 10 Cbor.anyCborProg .null)
        = true := by
  refine ⟨by decide, by decide, by decide⟩

namespace Json

/-- Claim C9: for a member-key group entry whose entry type is not a JSON
prelude name, against an object: a present key validates the member value
against the entry type; an absent key validates the entire enclosing object
against the entry type instead of reporting a missing key — in both the
quoted-string and the bareword member-key handlers of validate_group_entry,
stated over an arbitrary continuation vt standing for the recursive
validate_type call. -/
theorem claim_C9 (vt : JType → Option String → Option String →
      Option JOccur → JValue → JOut)
    (mkStr geStr k : String) (T : JType) (vOccur occur : Option JOccur)
    (om : List (String × JValue))
    (hp : is_type_json_prelude (jTypeToString T) = false) :
    (∀ v, objGet om k = some v →
      validate_text_member vt mkStr geStr k T occur (.object om)
        = vt T (some mkStr) (some k) occur v)
    ∧ (objGet om k = none →
      validate_text_member vt mkStr geStr k T occur (.object om)
        = vt T (some mkStr) none occur (.object om))
    ∧ (∀ v, objGet om k = some v →
      validate_bareword_member vt mkStr k T vOccur occur (.object om)
        = vt T (some mkStr) (some k) vOccur v)
    ∧ (objGet om k = none →
      validate_bareword_member vt mkStr k T vOccur occur (.object om)
        = vt T (some mkStr) none vOccur (.object om)) := by
  refine ⟨?_, ?_, ?_, ?_⟩
  · intro v hv
    simp only [validate_text_member]
    rw [hp]
    simp only [Bool.not_false, if_true, hv]
  · intro hv
    simp only [validate_text_member]
    rw [hp]
    simp only [Bool.not_false, if_true, hv]
  · intro v hv
    simp only [validate_bareword_member]
    rw [hp]
    simp only [Bool.not_false, if_true, hv]
  · intro hv
    simp only [validate_bareword_member]
    rw [hp]
    simp only [Bool.not_false, if_true, hv]

/-- Witness for claim C9: with a non-prelude entry type and the key absent
from an empty object, both member-key handlers hand the whole object to the
continuation. -/
theorem claim_C9_witness :
    is_type_json_prelude (jTypeToString c9T) = false
    ∧ validate_text_member c9vt "k" "ge" "k" c9T none (.object []) = .ok ()
    ∧ validate_bareword_member c9vt "k" "k" c9T none none (.object [])
        = .ok () := by
  have h := claim_C9 c9vt "k" "ge" "k" c9T none none [] (by decide)
  refine ⟨by decide, ?_, ?_⟩
  · rw [h.2.1 rfl]
    rfl
  · rw [h.2.2.2 rfl]
    rfl

end Json

namespace Cbor

/-- Claim C10: with the .ne control active, a literal member key missing
from a map is a pass: visit_value returns normally and the error list is
exactly what it was. -/
theorem claim_C10 (cddl : CDDL) (fuel : Nat) (value : TokenValue) (st : St)
    (m : List (CborValue × CborValue))
    (hc : st.cbor = .map m)
    (hk : mapGet m (token_value_into_cbor_value value) = none)
    (hctrl : st.ctrl = some .NE) :
    errorsOfVisit (visitValue cddl (fuel+1) value st) = some st.errors := by
  simp only [visitValue, hc]
  by_cases hany : value = .TEXT "any" <;>
    by_cases hcut : st.is_cut_present <;>
    simp [hany, hcut, hk, errorsOfVisit]
  all_goals
    cases hocc : st.occurence with
    | none => simp [hocc, hctrl, errorsOfVisit]
    | some o => cases o <;> simp [hocc, hctrl, errorsOfVisit]

/-- Witness for claim C10: the key k is missing from the empty map and the
.ne lookup passes with no recorded error. -/
theorem claim_C10_witness :
    c10St.cbor = .map []
    ∧ mapGet [] (token_value_into_cbor_value (.TEXT "k")) = none
    ∧ c10St.ctrl = some .NE
    ∧ errorsOfVisit (visitValue emptyCddl 1 (.TEXT "k") c10St) =
        some c10St.errors :=
  ⟨rfl, rfl, rfl, claim_C10 emptyCddl 0 (.TEXT "k") c10St [] rfl rfl rfl⟩

end Cbor
